import Mathlib

/-!
Verification development for the deckgen content-to-slide-deck pipeline.

The Python core (`deckgen/core/analyzer.py`, `designer.py`, `renderer.py`) is
shallowly embedded here.  Python strings are modelled as `List Char`; Python
floats appearing in the theme-scoring logic are modelled as `ℚ` (all values
involved are small decimal fractions, exactly representable); dictionaries
with a fixed field set are modelled as structures; the tagged slide/content
dictionaries are modelled as inductive types, one constructor per kind
(each constructor carries exactly the fields the Python code stores for that
kind).  File reading, YAML loading and the image-generation network call are
external collaborators: the embedded functions take their already-parsed
results as arguments, exactly as the specification's scope section prescribes.
-/

namespace DeckGen

/-- Python strings, modelled as lists of characters. -/
abbrev Str := List Char

/-- ASCII whitespace, as recognised by Python's `str.strip` and `\s`
(restricted to the ASCII range, which is all the pipeline ever feeds it). -/
def pyIsSpace (c : Char) : Bool :=
  c = ' ' || c = '\t' || c = '\n' || c = '\r' || c = '\x0b' || c = '\x0c'

/-- Python `str.strip()`: remove leading and trailing whitespace. -/
def pyStrip (s : Str) : Str :=
  ((s.dropWhile pyIsSpace).reverse.dropWhile pyIsSpace).reverse

/-- Python `str.split(sep)` for a one-character separator. -/
def splitOnChar (sep : Char) : Str → List Str
  | [] => [[]]
  | c :: t =>
    if c = sep then [] :: splitOnChar sep t
    else
      match splitOnChar sep t with
      | [] => [[c]]
      | l :: ls => (c :: l) :: ls

/-- Python `content.split("\n")`. -/
def splitNl (s : Str) : List Str := splitOnChar '\n' s

/-- Python `"\n".join(lines)`. -/
def joinNl (ls : List Str) : Str := List.intercalate ['\n'] ls

/-- Python `str.lower()` (ASCII case folding). -/
def lowerStr (s : Str) : Str := s.map Char.toLower

/-- `listStartsWith l p`: does `l` start with `p`?  (Python `str.startswith`.) -/
def listStartsWith : Str → Str → Bool
  | _, [] => true
  | [], _ :: _ => false
  | c :: t, p :: ps => c = p && listStartsWith t ps

/-- Python `str.endswith`. -/
def listEndsWith (l p : Str) : Bool := listStartsWith l.reverse p.reverse

/-- Python's substring test `needle in hay`. -/
def pyIn (needle : Str) : Str → Bool
  | [] => needle.isEmpty
  | c :: t => listStartsWith (c :: t) needle || pyIn needle t

/-! ## Markdown structural parser (`analyzer.py`, `_parse_markdown_sections`) -/

/-- A heading line matching Python's `^##\s+(.+)$` (two hashes, at least one
whitespace character, then at least one further character).  When the text
after the hashes is all whitespace of length `n ≥ 2`, the regex still matches
(`\s+` backtracks to leave one character for `(.+)`), which the conditions
below reproduce. -/
def isH2 (line : Str) : Bool :=
  match line with
  | '#' :: '#' :: c :: _ :: _ => pyIsSpace c
  | _ => false

/-- A heading line matching `^###\s+(.+)$`. -/
def isH3 (line : Str) : Bool :=
  match line with
  | '#' :: '#' :: '#' :: c :: _ :: _ => pyIsSpace c
  | _ => false

/-- A heading line matching `^####\s+(.+)$`. -/
def isH4 (line : Str) : Bool :=
  match line with
  | '#' :: '#' :: '#' :: '#' :: c :: _ :: _ => pyIsSpace c
  | _ => false

/-- The stored title of a heading line with `hashes` leading `#` characters:
the regex captures everything after `\s+` and the code then calls `.strip()`,
which is the same as stripping everything after the hashes. -/
def headingTitle (line : Str) (hashes : Nat) : Str := pyStrip (line.drop hashes)

/-- A subsection stub (`{"title": ..., "content": ""}`). -/
structure Subsection where
  title : Str
  content : Str
deriving DecidableEq, Repr

/-- A parsed markdown section dictionary
(`{"level": ..., "title": ..., "content": ..., "subsections": [...]}`). -/
structure Section where
  level : Nat
  title : Str
  content : Str
  subsections : List Subsection
deriving DecidableEq, Repr

/-- An open, not yet flushed section (its `content` is still being
accumulated in a separate line buffer). -/
structure CurSec where
  level : Nat
  title : Str
  subsections : List Subsection
deriving DecidableEq, Repr

/-- Flushing the current section: `current_section["content"] =
"\n".join(current_content).strip()`. -/
def closeSec (c : CurSec) (acc : List Str) : Section :=
  ⟨c.level, c.title, pyStrip (joinNl acc), c.subsections⟩

/-- The sections contributed by flushing the current section, if any. -/
def closeList (cur : Option CurSec) (acc : List Str) : List Section :=
  match cur with
  | none => []
  | some c => [closeSec c acc]

/-- The line scan of `_parse_markdown_sections`: `cur` is the open section,
`acc` the accumulated content lines. -/
def parseLoop : List Str → Option CurSec → List Str → List Section
  | [], cur, acc => closeList cur acc
  | line :: rest, cur, acc =>
    if isH2 line then
      closeList cur acc ++ parseLoop rest (some ⟨2, headingTitle line 2, []⟩) []
    else if isH3 line then
      closeList cur acc ++ parseLoop rest (some ⟨3, headingTitle line 3, []⟩) []
    else if isH4 line then
      match cur with
      | some c =>
        parseLoop rest (some ⟨c.level, c.title, c.subsections ++ [⟨headingTitle line 4, []⟩]⟩)
          (acc ++ [line])
      | none => parseLoop rest none (acc ++ [line])
    else
      parseLoop rest cur (acc ++ [line])

/-- `_parse_markdown_sections`. -/
def parseMarkdownSections (content : Str) : List Section :=
  if pyStrip content = [] then [] else parseLoop (splitNl content) none []

/-! ## Auxiliary extraction functions (`analyzer.py`) -/

/-- Prepend a character to the pre-match part of a scan result. -/
def consFst (c : Char) (pr : Str × Str × Str) : Str × Str × Str :=
  (c :: pr.1, pr.2.1, pr.2.2)

/-- Scan for the earliest closing `**`; the characters before it (the rest of
the non-greedy `(.+?)` group) may not include a newline. -/
def scanCloseStars : Str → Option (Str × Str)
  | '*' :: '*' :: post => some ([], post)
  | '\n' :: _ => none
  | c :: t => (scanCloseStars t).map (fun pr => (c :: pr.1, pr.2))
  | [] => none

/-- After an opening `**`: match the non-greedy `(.+?)\*\*` (at least one
non-newline character, then the earliest `**`). -/
def findBoldInner : Str → Option (Str × Str)
  | [] => none
  | c :: t =>
    if c = '\n' then none else (scanCloseStars t).map (fun pr => (c :: pr.1, pr.2))

/-- Leftmost match of `\*\*(.+?)\*\*`, returned as
(text before the match, captured group, text after the match). -/
def findBold : Str → Option (Str × Str × Str)
  | [] => none
  | c :: t =>
    if c = '*' then
      match t with
      | '*' :: rest =>
        match findBoldInner rest with
        | some (inner, post) => some ([], inner, post)
        | none => (findBold t).map (consFst c)
      | _ => (findBold t).map (consFst c)
    else (findBold t).map (consFst c)

/-- Fuelled iteration of `re.sub(r'\*\*(.+?)\*\*', r'\1', s)`: replace each
non-overlapping match, continuing after the match end.  One unit of fuel per
match is ample since every match consumes at least five characters. -/
def removeBoldGo : Nat → Str → Str
  | 0, s => s
  | Nat.succ f, s =>
    match findBold s with
    | none => s
    | some (pre, inner, post) => pre ++ inner ++ removeBoldGo f post

/-- `re.sub(r'\*\*(.+?)\*\*', r'\1', s)` (remove bold markup). -/
def removeBold (s : Str) : Str := removeBoldGo s.length s

/-- After `\]\(` : match the non-greedy `.+?\)` (at least one non-newline
character, then the earliest `)`), returning the text after the `)`. -/
def parenAux : Str → Option Str
  | ')' :: post => some post
  | '\n' :: _ => none
  | _ :: t => parenAux t
  | [] => none

/-- Match `.+?\)` at the start of the string. -/
def scanParenClose : Str → Option Str
  | [] => none
  | c :: t => if c = '\n' then none else parenAux t

/-- After an opening `[`: match `(.+?)\]\(.+?\)` with the regex engine's
backtracking order (the link text group grows one character at a time until a
`](` position whose parenthesised part also matches).  `acc` is the reversed
link text collected so far. -/
def tryLinkGo : Str → Str → Option (Str × Str)
  | acc, ']' :: '(' :: rest2 =>
    if acc = [] then tryLinkGo [']'] ('(' :: rest2)
    else
      match scanParenClose rest2 with
      | some post => some (acc.reverse, post)
      | none => tryLinkGo (']' :: acc) ('(' :: rest2)
  | _, '\n' :: _ => none
  | acc, c :: t => tryLinkGo (c :: acc) t
  | _, [] => none

/-- Leftmost match of `\[(.+?)\]\(.+?\)`, as
(text before, captured link text, text after). -/
def findLink : Str → Option (Str × Str × Str)
  | [] => none
  | c :: t =>
    if c = '[' then
      match tryLinkGo [] t with
      | some (inner, post) => some ([], inner, post)
      | none => (findLink t).map (consFst c)
    else (findLink t).map (consFst c)

/-- Fuelled iteration of `re.sub(r'\[(.+?)\]\(.+?\)', r'\1', s)`. -/
def removeLinksGo : Nat → Str → Str
  | 0, s => s
  | Nat.succ f, s =>
    match findLink s with
    | none => s
    | some (pre, inner, post) => pre ++ inner ++ removeLinksGo f post

/-- `re.sub(r'\[(.+?)\]\(.+?\)', r'\1', s)` (clean link markup). -/
def removeLinks (s : Str) : Str := removeLinksGo s.length s

/-- The bullet characters accepted by `_extract_bullet_points`. -/
def bulletMarkers : List Char := ['-', '*', '•']

/-- After the bullet marker (or the `N.` prefix): match `\s+(.+)$` and return
the captured group.  `t` must start with a whitespace character and have at
least two characters; greedily `\s+` eats all whitespace and, when nothing is
left for `(.+)`, backtracks to leave exactly one character. -/
def captureOf (t : Str) : Str :=
  let d := t.dropWhile pyIsSpace
  if d = [] then t.drop (t.length - 1) else d

/-- Match `\s+(.+)$` against `t` (see `captureOf`). -/
def tailCapture (t : Str) : Option Str :=
  match t with
  | c :: _ :: _ => if pyIsSpace c then some (captureOf t) else none
  | _ => none

/-- Match one line against
`^[\s]*[-*•]\s+(.+)$|^[\s]*\d+\.\s+(.+)$` and return the captured point. -/
def matchBullet (line : Str) : Option Str :=
  let r := line.dropWhile pyIsSpace
  match r with
  | c :: t =>
    if bulletMarkers.contains c then tailCapture t
    else
      let ds := r.takeWhile Char.isDigit
      if ds = [] then none
      else
        match r.drop ds.length with
        | '.' :: t2 => tailCapture t2
        | _ => none
  | [] => none

/-- The per-line collection loop of `_extract_bullet_points`: each matched
point has bold and link markup removed and is stripped; collection stops as
soon as `maxPoints` points have been gathered. -/
def bulletLoop (maxPoints : Nat) : List Str → List Str → List Str
  | [], acc => acc
  | line :: rest, acc =>
    match matchBullet line with
    | some point =>
      let acc' := acc ++ [pyStrip (removeLinks (removeBold point))]
      if maxPoints ≤ acc'.length then acc' else bulletLoop maxPoints rest acc'
    | none => bulletLoop maxPoints rest acc

/-- `_extract_bullet_points` (default cap 5, always passed explicitly here). -/
def extractBulletPoints (content : Str) (maxPoints : Nat) : List Str :=
  bulletLoop maxPoints (splitNl content) []

/-- A table row: ordered header-to-cell pairs
(`{headers[i]: cells[i] for i in range(len(headers))}`). -/
abbrev Row := List (Str × Str)

/-- The split-and-filter of a table line:
`[c.strip() for c in line.split("|") if c.strip()]`. -/
def tableCells (line : Str) : List Str :=
  ((splitOnChar '|' line).map pyStrip).filter (fun c => ¬ c = [])

/-- The line scan of `_extract_table_data`: the first `|` line (that is not a
`|--` separator) provides the headers; later such lines with enough cells and
at least one non-dash cell are zipped against the headers; a non-blank line
without `|` after the table has started ends the scan. -/
def tableGo : List Str → List Str → Bool → List Row → List Row
  | [], _, _, acc => acc
  | line :: rest, headers, inTable, acc =>
    if pyIn ['|'] line ∧ ¬ listStartsWith (pyStrip line) ("|--".data) then
      let cells := tableCells line
      if inTable = false then tableGo rest cells true acc
      else if ¬ cells = [] ∧ ¬ cells.all (fun c => pyStrip (c.filter (fun x => ¬ x = '-')) = []) then
        if headers.length ≤ cells.length then
          tableGo rest headers true (acc ++ [headers.zip cells])
        else tableGo rest headers true acc
      else tableGo rest headers true acc
    else if inTable ∧ ¬ pyIn ['|'] line ∧ ¬ pyStrip line = [] then acc
    else tableGo rest headers inTable acc

/-- `_extract_table_data`: `None` when no data row was collected. -/
def extractTableData (content : Str) : Option (List Row) :=
  let td := tableGo (splitNl content) [] false []
  if td = [] then none else some td

/-- An extracted code block (`{"language": ..., "code": ...}`). -/
structure CodeBlock where
  language : Str
  code : Str
deriving DecidableEq, Repr

/-- Python `\w` (ASCII range). -/
def isWordChar (c : Char) : Bool := c.isAlphanum || c = '_'

/-- Scan for the earliest closing fence of `(.*?)```» (DOTALL: the body may
contain newlines and may be empty). -/
def scanToFence : Str → Option (Str × Str)
  | '`' :: '`' :: '`' :: post => some ([], post)
  | c :: t => (scanToFence t).map (fun pr => (c :: pr.1, pr.2))
  | [] => none

/-- Try to match «```(\w*)\n(.*?)```» exactly at the start of `s`. -/
def fenceAt (s : Str) : Option (Str × Str × Str) :=
  match s with
  | '`' :: '`' :: '`' :: rest =>
    let lang := rest.takeWhile isWordChar
    match rest.dropWhile isWordChar with
    | '\n' :: r3 => (scanToFence r3).map (fun pr => (lang, pr.1, pr.2))
    | _ => none
  | _ => none

/-- Leftmost match of the fenced-code regex (the scan advances one character
at a time, as the `re` engine does). -/
def findFenceMatch : Str → Option (Str × Str × Str)
  | [] => none
  | c :: t =>
    match fenceAt (c :: t) with
    | some m => some m
    | none => findFenceMatch t

/-- Fuelled iteration of `re.findall` for the fenced-code regex; the language
defaults to `"text"` and the code body is stripped and truncated to 500
characters. -/
def extractCodeBlocksGo : Nat → Str → List CodeBlock
  | 0, _ => []
  | Nat.succ f, s =>
    match findFenceMatch s with
    | none => []
    | some (lang, code, post) =>
      ⟨if lang = [] then "text".data else lang, (pyStrip code).take 500⟩ ::
        extractCodeBlocksGo f post

/-- `_extract_code_blocks`. -/
def extractCodeBlocks (content : Str) : List CodeBlock :=
  extractCodeBlocksGo content.length content

/-- Python `content.split("\n\n")`. -/
def splitOnDoubleNl : Str → List Str
  | '\n' :: '\n' :: t => [] :: splitOnDoubleNl t
  | c :: t =>
    match splitOnDoubleNl t with
    | [] => [[c]]
    | l :: ls => (c :: l) :: ls
  | [] => [[]]

/-- The paragraph scan of `_get_first_paragraph`. -/
def firstParaGo : List Str → Str
  | [] => []
  | p :: rest =>
    let q := pyStrip p
    if ¬ q = [] ∧ ¬ listStartsWith q ['#'] ∧ ¬ listStartsWith q ['-'] ∧
        ¬ listStartsWith q ("```".data) then
      (removeLinks (removeBold q)).take 300
    else firstParaGo rest

/-- `_get_first_paragraph`. -/
def getFirstParagraph (content : Str) : Str :=
  firstParaGo (splitOnDoubleNl content)

/-! ## Title and subtitle extraction (`analyzer.py`) -/

/-- Case-insensitive literal prefix match; on success returns the remainder. -/
def matchWordCI (p s : Str) : Option Str :=
  if (s.take p.length).map Char.toLower = p.map Char.toLower then some (s.drop p.length)
  else none

/-- Match `\s+` (at least one whitespace character, greedily). -/
def ws1 (s : Str) : Option Str :=
  match s with
  | c :: t => if pyIsSpace c then some (t.dropWhile pyIsSpace) else none
  | [] => none

/-- Match the alternation `(about|for|on)` of the generation-verb pattern. -/
def matchPrep (s : Str) : Option Str :=
  matchWordCI ("about".data) s <|> matchWordCI ("for".data) s <|> matchWordCI ("on".data) s

/-- After the noun: match `\s+(about|for|on)\s+`. -/
def afterNoun (s : Str) : Option Str :=
  (ws1 s).bind fun s1 => (matchPrep s1).bind ws1

/-- Match `(deck|presentation|slides?)` followed by `afterNoun`, with the
regex engine's backtracking between `slides` and `slide`. -/
def nounThen (s : Str) : Option Str :=
  ((matchWordCI ("deck".data) s).bind afterNoun) <|>
  ((matchWordCI ("presentation".data) s).bind afterNoun) <|>
  ((matchWordCI ("slides".data) s).bind afterNoun) <|>
  ((matchWordCI ("slide".data) s).bind afterNoun)

/-- Match the optional `(a\s+)?` group (preferring to take it, backtracking
to skip it when the rest of the pattern then fails). -/
def aThen (s : Str) : Option Str :=
  match (matchWordCI ("a".data) s).bind ws1 with
  | some s2 => nounThen s2 <|> nounThen s
  | none => nounThen s

/-- Match the alternation `(create|make|build|generate)`. -/
def matchVerb (s : Str) : Option Str :=
  matchWordCI ("create".data) s <|> matchWordCI ("make".data) s <|>
  matchWordCI ("build".data) s <|> matchWordCI ("generate".data) s

/-- `re.sub(r'^(create|make|build|generate)\s+(a\s+)?(deck|presentation|slides?)\s+(about|for|on)\s+', '', title, flags=re.I)`:
remove the generation-verb prefix when it matches at the start. -/
def stripGenLead (t : Str) : Str :=
  match (matchVerb t).bind (fun s1 => (ws1 s1).bind aThen) with
  | some rest => rest
  | none => t

/-- The description-derived branch of `_extract_title`: first sentence,
stripped, generation-verb prefix removed, truncated to 80 characters. -/
def descTitle (description : Str) : Str :=
  let t := stripGenLead (pyStrip (description.takeWhile (fun c => ¬ c = '.')))
  if 80 < t.length then t.take 80 else t

/-- `_extract_title`. -/
def extractTitle (description : Str) (sections : List Section) : Str :=
  match sections with
  | sec :: _ => if sec.level = 1 then sec.title else descTitle description
  | [] => descTitle description

/-- The month names of the subtitle date pattern (matched case-sensitively). -/
def monthNames : List Str :=
  ["January", "February", "March", "April", "May", "June", "July", "August",
   "September", "October", "November", "December"].map String.data

/-- Try to match `(Month)\s+\d{4}` exactly at the start of `s`; on success
return the matched text (month, the greedily consumed whitespace run, and
four digits). -/
def tryMonthAt (s : Str) : Option Str :=
  monthNames.findSome? fun m =>
    (matchWordCI m s).bind fun r =>
      let wsPart := r.takeWhile pyIsSpace
      let r2 := r.drop wsPart.length
      if ¬ wsPart = [] ∧ (r2.take 4).length = 4 ∧ (r2.take 4).all Char.isDigit then
        some (m ++ wsPart ++ r2.take 4)
      else none

/-- `re.search` for the `Month YYYY` pattern: leftmost match. -/
def findMonthYear : Str → Option Str
  | [] => none
  | c :: t => tryMonthAt (c :: t) <|> findMonthYear t

/-- `_extract_subtitle` (the `sections` argument is accepted but, as in the
source, never used). -/
def extractSubtitle (_sections : List Section) (fullText : Str) : Str :=
  match findMonthYear fullText with
  | some d => d
  | none =>
    if pyIn ("session summary".data) (lowerStr fullText) then "Session Summary".data
    else []

/-! ## Slide specifications and the content planner
(`analyzer.py`, `_generate_slides_from_content` / `_expand_slides`) -/

/-- A card (`{"title": ..., "description": ...}`). -/
structure Card where
  title : Str
  description : Str
deriving DecidableEq, Repr

/-- A metric stat (`{"number": ..., "label": ...}`). -/
structure Stat where
  number : Str
  label : Str
deriving DecidableEq, Repr

/-- An abstract slide specification: the `"type"`-tagged dictionaries the
planner produces, one constructor per kind, carrying exactly the fields the
Python code stores for that kind. -/
inductive SlideSpec where
  | title (title subtitle : Str)
  | statement (title content : Str)
  | points (title : Str) (points : List Str)
  | numbered (title : Str) (items : List Str)
  | cards (title : Str) (cards : List Card)
  | table (title : Str) (table : List Row)
  | code (title code language : Str)
  | architecture (title content : Str) (points : List Str)
  | metrics (title : Str) (stats : List Stat)
  | cta (title subtitle : Str)
deriving DecidableEq, Repr

/-- Section titles whose slides are skipped. -/
def skipTitles : List Str :=
  ["configuration", "files created", "environment"].map String.data

/-- Does the lower-cased section title contain any of the given keywords? -/
def titleHasAny (words : List String) (t : Str) : Bool :=
  words.any fun w => pyIn w.data (lowerStr t)

/-- One card from a bullet point: split at the first `:` when present,
otherwise truncate the title to 30 characters. -/
def mkCard (p : Str) : Card :=
  if pyIn [':'] p then
    ⟨p.takeWhile (fun c => ¬ c = ':'), pyStrip ((p.reverse.takeWhile (fun c => ¬ c = ':')).reverse)⟩
  else ⟨p.take 30, p⟩

/-- Chunks of three (`range(0, len(bullet_points), 3)`), fuelled. -/
def chunks3Go : Nat → List Str → List (List Str)
  | 0, _ => []
  | _, [] => []
  | Nat.succ f, c :: t => ((c :: t).take 3) :: chunks3Go f ((c :: t).drop 3)

/-- Chunks of three bullet points. -/
def chunks3 (l : List Str) : List (List Str) := chunks3Go l.length l

/-- The card slides for a scenario section: the first chunk keeps the section
title, later chunks get `"<title> (cont.)"`. -/
def cardSlides (title : Str) (bullets : List Str) : List SlideSpec :=
  match chunks3 bullets with
  | [] => []
  | c :: rest =>
    SlideSpec.cards title (c.map mkCard) ::
      rest.map fun ch => SlideSpec.cards (title ++ " (cont.)".data) (ch.map mkCard)

/-- The per-section slide generation of `_generate_slides_from_content`
(step 2): ordered keyword rules on the section title choose the slide kind. -/
def slidesForSection (sec : Section) : List SlideSpec :=
  if skipTitles.any (fun sk => pyIn (lowerStr sk) (lowerStr sec.title)) then []
  else
    let bullets := extractBulletPoints sec.content 5
    let tableData := extractTableData sec.content
    let codeBlocks := extractCodeBlocks sec.content
    if titleHasAny ["architecture", "diagram", "flow"] sec.title then
      [SlideSpec.architecture sec.title (getFirstParagraph sec.content)
        (if bullets = [] then [] else bullets.take 4)]
    else if titleHasAny ["result", "metric", "impact", "test"] sec.title then
      match tableData with
      | some td => [SlideSpec.table sec.title (td.take 5)]
      | none =>
        if bullets = [] then [] else [SlideSpec.points sec.title (bullets.take 5)]
    else if ¬ codeBlocks = [] ∨ titleHasAny ["code", "implementation", "example"] sec.title then
      match codeBlocks with
      | cb :: _ => [SlideSpec.code sec.title cb.code cb.language]
      | [] => []
    else if titleHasAny ["scenario", "use case", "hero"] sec.title then
      if bullets = [] then [] else cardSlides sec.title bullets
    else if titleHasAny ["what", "why", "benefit", "feature", "built"] sec.title then
      match tableData with
      | some td => [SlideSpec.table sec.title (td.take 5)]
      | none =>
        if ¬ bullets = [] then [SlideSpec.points sec.title (bullets.take 5)]
        else
          let para := getFirstParagraph sec.content
          if para = [] then [] else [SlideSpec.statement sec.title para]
    else if titleHasAny ["next", "step", "action", "start"] sec.title then
      if bullets = [] then [] else [SlideSpec.numbered sec.title (bullets.take 5)]
    else if ¬ bullets = [] then [SlideSpec.points sec.title (bullets.take 5)]
    else if ¬ pyStrip sec.content = [] then
      let para := getFirstParagraph sec.content
      if ¬ para = [] ∧ 20 < para.length then [SlideSpec.statement sec.title para] else []
    else []

/-- The first expansion template: `"The Challenge"` statement built from the
topic (`_extract_title(description, [])`). -/
def challengeSlide (description : Str) : SlideSpec :=
  SlideSpec.statement ("The Challenge".data)
    (("Understanding the key challenges and opportunities in ".data) ++
      lowerStr (extractTitle description []) ++ ".".data)

/-- The `"Key Insights"` expansion template. -/
def insightsSlide : SlideSpec :=
  SlideSpec.points ("Key Insights".data)
    ["Industry trends and market dynamics".data,
     "Critical success factors".data,
     "Emerging opportunities".data,
     "Strategic considerations".data]

/-- The `"Our Approach"` expansion template. -/
def approachSlide : SlideSpec :=
  SlideSpec.points ("Our Approach".data)
    ["Research and analysis".data,
     "Strategic planning".data,
     "Implementation roadmap".data,
     "Continuous improvement".data]

/-- The `"Key Benefits"` expansion template. -/
def benefitsSlide : SlideSpec :=
  SlideSpec.cards ("Key Benefits".data)
    [⟨"Efficiency".data, "Streamlined processes and improved productivity".data⟩,
     ⟨"Innovation".data, "New capabilities and competitive advantages".data⟩,
     ⟨"Growth".data, "Expanded opportunities and scalability".data⟩]

/-- The `"Next Steps"` expansion template. -/
def nextStepsSlide : SlideSpec :=
  SlideSpec.numbered ("Next Steps".data)
    ["Review current state and objectives".data,
     "Identify key priorities and resources".data,
     "Develop implementation timeline".data,
     "Execute and measure results".data]

/-- The fixed template list of `_expand_slides`. -/
def expansionTemplates (description : Str) : List SlideSpec :=
  [challengeSlide description, insightsSlide, approachSlide, benefitsSlide, nextStepsSlide]

/-- The `while` loop of `_expand_slides`: append templates while the
expanded list (title slide plus templates; the original organic slides are
appended only afterwards) is shorter than `minCount`. -/
def expandLoop : List SlideSpec → List SlideSpec → Nat → List SlideSpec
  | expanded, [], _ => expanded
  | expanded, t :: rest, minCount =>
    if expanded.length < minCount then expandLoop (expanded ++ [t]) rest minCount
    else expanded

/-- `_expand_slides` (the source indexes `slides[0]`, so it is only ever
called with a non-empty list; on `[]` this model returns `[]`). -/
def expandSlides (slides : List SlideSpec) (description : Str) (minCount : Nat) :
    List SlideSpec :=
  match slides with
  | [] => []
  | s0 :: rest => expandLoop [s0] (expansionTemplates description) minCount ++ rest

/-- Step 3 of `_generate_slides_from_content`: `min_slides = 5`, expansion
when fewer than `min_slides - 1` slides (title slide included) exist so far. -/
def planExpand (slides : List SlideSpec) (description : Str) : List SlideSpec :=
  if slides.length < 5 - 1 then expandSlides slides description (5 - 1) else slides

/-- `_generate_slides_from_content`. -/
def generateSlides (description : Str) (sections : List Section) (fullText : Str) :
    List SlideSpec :=
  planExpand
    (SlideSpec.title (extractTitle description sections) (extractSubtitle sections fullText) ::
      sections.flatMap slidesForSection)
    description
  ++ [SlideSpec.cta ("Thank You".data) ("Questions?".data)]

/-! ## Content classifier (`analyzer.py`) -/

/-- `_determine_content_type`: ordered first-match-wins keyword sets. -/
def determineContentType (text : Str) : Str :=
  let tl := lowerStr text
  if ["feature", "launch", "release", "announce"].any (fun w => pyIn w.data tl) then
    "feature_launch".data
  else if ["architecture", "system", "design", "technical"].any (fun w => pyIn w.data tl) then
    "technical".data
  else if ["metrics", "roi", "cost", "revenue", "business"].any (fun w => pyIn w.data tl) then
    "business".data
  else if ["tutorial", "how to", "guide", "learn"].any (fun w => pyIn w.data tl) then
    "tutorial".data
  else if ["vision", "strategy", "future", "roadmap"].any (fun w => pyIn w.data tl) then
    "vision".data
  else "general".data

/-- `_determine_audience`. -/
def determineAudience (text : Str) : Str :=
  let tl := lowerStr text
  if ["developer", "engineer", "technical", "code", "api"].any (fun w => pyIn w.data tl) then
    "technical".data
  else if ["executive", "ceo", "leadership", "business"].any (fun w => pyIn w.data tl) then
    "executive".data
  else "mixed".data

/-- `_determine_tone`. -/
def determineTone (text : Str) : Str :=
  let tl := lowerStr text
  if ["exciting", "innovative", "revolutionary"].any (fun w => pyIn w.data tl) then
    "energetic".data
  else if ["professional", "enterprise", "formal"].any (fun w => pyIn w.data tl) then
    "professional".data
  else "neutral".data

/-- The code file extensions of `_detect_code_content`. -/
def codeExtensions : List Str :=
  [".py", ".js", ".ts", ".go", ".rs", ".java", ".cpp"].map String.data

/-- `_detect_code_content`. -/
def detectCodeContent (text : Str) (files : List Str) : Bool :=
  if pyIn ("```".data) text then true
  else
    let hasCodeKeywords :=
      ["code", "api", "function", "class", "implementation", "syntax"].any
        fun w => pyIn w.data (lowerStr text)
    if ¬ files = [] then
      hasCodeKeywords ||
        files.any (fun f => codeExtensions.any fun ext => listEndsWith f ext)
    else hasCodeKeywords

/-- The fixed technical-term vocabulary of `_assess_technical_depth`. -/
def technicalTerms : List Str :=
  ["architecture", "implementation", "algorithm", "infrastructure",
   "api", "database", "microservice", "container", "kubernetes",
   "protocol", "cache", "queue", "async", "performance"].map String.data

/-- `sum(1 for term in technical_terms if term in text_lower)`. -/
def termMatches (text : Str) : Nat :=
  (technicalTerms.filter fun t => pyIn t (lowerStr text)).length

/-- `_assess_technical_depth`: `min(matches / 5.0, 1.0)`. -/
def assessTechnicalDepth (text : Str) : ℚ :=
  min ((termMatches text : ℚ) / 5) 1

/-! ## Theme selection and layout mapping (`designer.py`) -/

/-- The classification fields of a content brief consumed by `select_theme`
(the full brief also carries the description, sections and slides; only
these four fields are read by the theme selector). -/
structure ContentBrief where
  contentType : Str
  audience : Str
  hasCode : Bool
  technicalDepth : ℚ
deriving DecidableEq, Repr

/-- A theme's trigger rules.  `technicalDepth` is the already-parsed form of
the `"low-high"` range string: `none` stands for a missing, non-string,
dash-free or otherwise unparseable range (each of which the source maps to a
zero contribution via its `try/except ValueError`). -/
structure Triggers where
  contentTypes : List Str
  audiences : List Str
  hasCode : Bool
  technicalDepth : Option (ℚ × ℚ)
deriving DecidableEq, Repr

/-- A theme's colors (`colors` mapping; every field optional, the renderer
and designer supply the documented defaults with `.get`). -/
structure ThemeColors where
  background : Option Str
  textPrimary : Option Str
  textSecondary : Option Str
  accent : Option Str
  accentSecondary : Option Str
  cardBg : Option Str
  border : Option Str
deriving DecidableEq, Repr

/-- A theme's typography mapping (the fields the renderer reads). -/
structure ThemeTypography where
  primaryFont : Option Str
  codeFont : Option Str
  headlineWeight : Option Str
deriving DecidableEq, Repr

/-- A loaded theme configuration (already parsed from its YAML file, which
is an external collaborator). -/
structure ThemeCfg where
  description : Str
  colors : ThemeColors
  typography : ThemeTypography
  triggers : Triggers
deriving DecidableEq, Repr

/-- The additive trigger score of `select_theme`, accumulated in source
order: `+2.0` content type, `+1.0` audience, `+1.5` has-code, `+1.5`
technical-depth range. -/
def scoreTheme (brief : ContentBrief) (cfg : ThemeCfg) : ℚ :=
  let score : ℚ := 0
  let score := if cfg.triggers.contentTypes.contains brief.contentType then score + 2 else score
  let score := if cfg.triggers.audiences.contains brief.audience then score + 1 else score
  let score := if cfg.triggers.hasCode && brief.hasCode then score + 3/2 else score
  match cfg.triggers.technicalDepth with
  | some r => if r.1 ≤ brief.technicalDepth ∧ brief.technicalDepth ≤ r.2 then score + 3/2 else score
  | none => score

/-- One comparison step of the maximum search: keep the current best entry
unless the new entry's score is strictly larger (so ties keep the first
encountered entry, like Python's `max`). -/
def amStep (acc : Option (Str × ℚ)) (p : Str × ℚ) : Option (Str × ℚ) :=
  match acc with
  | none => some p
  | some b => if b.2 < p.2 then some p else some b

/-- Python `max(scores, key=scores.get)` over the insertion-ordered score
dictionary: the first entry with the maximal value. -/
def argmaxFirst (l : List (Str × ℚ)) : Option (Str × ℚ) :=
  l.foldl amStep none

/-- The scoring path of `select_theme`: highest-scoring theme if its score is
strictly positive, else the fixed default `keynote_minimalist` (also used
when no themes are loaded). -/
def selectThemeAuto (themes : List (Str × ThemeCfg)) (brief : ContentBrief) : Str :=
  match argmaxFirst (themes.map fun p => (p.1, scoreTheme brief p.2)) with
  | some p => if 0 < p.2 then p.1 else "keynote_minimalist".data
  | none => "keynote_minimalist".data

/-- `force_theme.replace("-", "_")`. -/
def normalizeThemeName (t : Str) : Str := t.map fun c => if c = '-' then '_' else c

/-- `select_theme`.  The loaded themes dictionary is passed as an
insertion-ordered association list; a `forceTheme` of `[]` models Python's
falsy `None`/`""`. -/
def selectTheme (themes : List (Str × ThemeCfg)) (brief : ContentBrief)
    (forceTheme : Str) : Str :=
  if ¬ forceTheme = [] then
    if themes.any (fun p => p.1 == forceTheme) then forceTheme
    else if themes.any (fun p => p.1 == normalizeThemeName forceTheme) then
      normalizeThemeName forceTheme
    else selectThemeAuto themes brief
  else selectThemeAuto themes brief

/-- The layout-specific content of a mapped slide (the `content` dictionary
of `_design_slide`, one constructor per layout). -/
inductive MappedContent where
  | titleC (title subtitle accentColor : Str)
  | statementC (title statement : Str)
  | bulletC (title : Str) (points : List Str)
  | numberedC (title : Str) (items : List Str)
  | cardsC (title : Str) (cards : List Card)
  | tableC (title : Str) (table : List Row)
  | codeC (title code language : Str)
  | archC (title description : Str) (points : List Str)
  | statC (title : Str) (stats : List Stat)
  | ctaC (title subtitle ctaText ctaUrl : Str)
deriving DecidableEq, Repr

/-- A designed slide (`{"layout": ..., "theme": ..., "content": ...}`, plus
the optional background image the image-generation collaborator may attach
before rendering). -/
structure MappedSlide where
  layout : Str
  theme : Str
  content : MappedContent
  backgroundImage : Option Str
deriving DecidableEq, Repr

/-- `_design_slide`: one-to-one kind-to-layout mapping; a `metrics` spec with
no stats yields `none`.  (The source's `.get(..., default)` lookups never
fire for planner-produced dictionaries, whose fields are always present;
with the typed `SlideSpec` they disappear.) -/
def designSlide (spec : SlideSpec) (theme : ThemeCfg) (themeName : Str) :
    Option MappedSlide :=
  let accent := theme.colors.accent.getD ("#0A84FF".data)
  match spec with
  | .title t st => some ⟨"title_center".data, themeName, .titleC t st accent, none⟩
  | .statement t c => some ⟨"statement".data, themeName, .statementC t c, none⟩
  | .points t ps => some ⟨"bullet_points".data, themeName, .bulletC t ps, none⟩
  | .numbered t its => some ⟨"numbered_list".data, themeName, .numberedC t its, none⟩
  | .cards t cs => some ⟨"grid_thirds".data, themeName, .cardsC t cs, none⟩
  | .table t tb => some ⟨"table_slide".data, themeName, .tableC t tb, none⟩
  | .code t cd lang => some ⟨"code_example".data, themeName, .codeC t cd lang, none⟩
  | .architecture t c ps => some ⟨"architecture".data, themeName, .archC t c ps, none⟩
  | .metrics t sts =>
    if sts = [] then none
    else some ⟨"stat_grid".data, themeName, .statC t sts, none⟩
  | .cta t st => some ⟨"cta_final".data, themeName, .ctaC t st [] ("#".data), none⟩

/-- `design_slides`: map every planned slide, dropping the omitted ones. -/
def designSlides (slides : List SlideSpec) (theme : ThemeCfg) (themeName : Str) :
    List MappedSlide :=
  slides.filterMap fun sp => designSlide sp theme themeName

/-! ## Document renderer (`renderer.py`) -/

/-- The fixed navigation JavaScript emitted by `_generate_navigation_js`. -/
def navJs : Str := "\n        let currentSlide = 0;\n        const slides = document.querySelectorAll(\x27.slide\x27);\n        const nav = document.getElementById(\x27nav\x27);\n        const counter = document.getElementById(\x27counter\x27);\n        \n        // Create navigation dots with accessibility\n        slides.forEach((_, i) => \x7b\n            const dot = document.createElement(\x27div\x27);\n            dot.className = \x27nav-dot\x27 + (i === 0 ? \x27 active\x27 : \x27\x27);\n            dot.setAttribute(\x27role\x27, \x27button\x27);\n            dot.setAttribute(\x27aria-label\x27, \x60Go to slide $\x7bi + 1\x7d\x60);\n            dot.setAttribute(\x27tabindex\x27, \x270\x27);\n            dot.onclick = () => goToSlide(i);\n            dot.onkeydown = (e) => \x7b if (e.key === \x27Enter\x27 || e.key === \x27 \x27) goToSlide(i); \x7d;\n            nav.appendChild(dot);\n        \x7d);\n        \n        function updateCounter() \x7b\n            counter.textContent = \x60$\x7bcurrentSlide + 1\x7d / $\x7bslides.length\x7d\x60;\n        \x7d\n        \n        function goToSlide(n) \x7b\n            slides[currentSlide].classList.remove(\x27active\x27);\n            document.querySelectorAll(\x27.nav-dot\x27)[currentSlide].classList.remove(\x27active\x27);\n            \n            currentSlide = n;\n            if (currentSlide >= slides.length) currentSlide = 0;\n            if (currentSlide < 0) currentSlide = slides.length - 1;\n            \n            slides[currentSlide].classList.add(\x27active\x27);\n            document.querySelectorAll(\x27.nav-dot\x27)[currentSlide].classList.add(\x27active\x27);\n            updateCounter();\n        \x7d\n        \n        function nextSlide() \x7b goToSlide(currentSlide + 1); \x7d\n        function prevSlide() \x7b goToSlide(currentSlide - 1); \x7d\n        \n        // Keyboard navigation\n        document.addEventListener(\x27keydown\x27, (e) => \x7b\n            switch(e.key) \x7b\n                case \x27ArrowRight\x27:\n                case \x27 \x27:\n                case \x27PageDown\x27:\n                    e.preventDefault();\n                    nextSlide();\n                    break;\n                case \x27ArrowLeft\x27:\n                case \x27PageUp\x27:\n                    e.preventDefault();\n                    prevSlide();\n                    break;\n                case \x27Home\x27:\n                    e.preventDefault();\n                    goToSlide(0);\n                    break;\n                case \x27End\x27:\n                    e.preventDefault();\n                    goToSlide(slides.length - 1);\n                    break;\n            \x7d\n        \x7d);\n        \n        // Touch swipe navigation\n        let touchStartX = 0;\n        let touchStartY = 0;\n        let touchEndX = 0;\n        let touchEndY = 0;\n        const SWIPE_THRESHOLD = 50;\n        \n        document.addEventListener(\x27touchstart\x27, (e) => \x7b\n            touchStartX = e.changedTouches[0].screenX;\n            touchStartY = e.changedTouches[0].screenY;\n        \x7d, \x7b passive: true \x7d);\n        \n        document.addEventListener(\x27touchend\x27, (e) => \x7b\n            touchEndX = e.changedTouches[0].screenX;\n            touchEndY = e.changedTouches[0].screenY;\n            handleSwipe();\n        \x7d, \x7b passive: true \x7d);\n        \n        function handleSwipe() \x7b\n            const diffX = touchStartX - touchEndX;\n            const diffY = touchStartY - touchEndY;\n            \n            // Only handle horizontal swipes (ignore vertical scrolling)\n            if (Math.abs(diffX) > Math.abs(diffY) && Math.abs(diffX) > SWIPE_THRESHOLD) \x7b\n                if (diffX > 0) \x7b\n                    nextSlide(); // Swipe left = next\n                \x7d else \x7b\n                    prevSlide(); // Swipe right = previous\n                \x7d\n            \x7d\n        \x7d\n        \n        // Click navigation (left half = back, right half = forward)\n        // Exclude clicks on nav dots, buttons, and links\n        document.addEventListener(\x27click\x27, (e) => \x7b\n            const tag = e.target.tagName.toLowerCase();\n            const isInteractive = tag === \x27a\x27 || tag === \x27button\x27 || \n                                  e.target.classList.contains(\x27nav-dot\x27) ||\n                                  e.target.closest(\x27.nav\x27) ||\n                                  e.target.closest(\x27a\x27) ||\n                                  e.target.closest(\x27button\x27);\n            \n            if (isInteractive) return;\n            \n            const clickX = e.clientX;\n            const windowWidth = window.innerWidth;\n            \n            if (clickX < windowWidth / 3) \x7b\n                prevSlide(); // Left third = previous\n            \x7d else if (clickX > (windowWidth * 2 / 3)) \x7b\n                nextSlide(); // Right third = next\n            \x7d\n            // Middle third does nothing (allows text selection, etc.)\n        \x7d);\n        \n        updateCounter();\n        ".data

-- Literal chunks of the CSS template in `_generate_css`; the
-- placeholders, in order, are: bg, text_primary, text_secondary, accent, accent_secondary, card_bg, border, primary_font, headline_weight, code_font, nav_dot_inactive, counter_color
def cssPart0 : Str := "\n        :root \x7b\n            /* Fluid typography scale */\n            --font-headline: clamp(36px, 8vw, 72px);\n            --font-headline-medium: clamp(28px, 6vw, 56px);\n            --font-subhead: clamp(18px, 3.5vw, 28px);\n            --font-body: clamp(16px, 2.5vw, 22px);\n            --font-body-large: clamp(18px, 3vw, 28px);\n            --font-small: clamp(12px, 1.5vw, 14px);\n            --font-code: clamp(13px, 1.8vw, 16px);\n            --font-stat: clamp(48px, 12vw, 72px);\n            \n            /* Fluid spacing scale */\n            --space-slide-padding: clamp(24px, 5vw, 80px);\n            --space-slide-padding-y: clamp(40px, 6vh, 60px);\n            --space-gap-large: clamp(24px, 4vw, 80px);\n            --space-gap-medium: clamp(16px, 3vw, 40px);\n            --space-gap-small: clamp(12px, 2vw, 24px);\n            --space-element-margin: clamp(16px, 3vw, 40px);\n            \n            /* Theme colors as CSS variables */\n            --color-bg: ".data
def cssPart1 : Str := ";\n            --color-text: ".data
def cssPart2 : Str := ";\n            --color-text-secondary: ".data
def cssPart3 : Str := ";\n            --color-accent: ".data
def cssPart4 : Str := ";\n            --color-accent-secondary: ".data
def cssPart5 : Str := ";\n            --color-card-bg: ".data
def cssPart6 : Str := ";\n            --color-border: ".data
def cssPart7 : Str := ";\n        \x7d\n        \n        * \x7b margin: 0; padding: 0; box-sizing: border-box; \x7d\n        \n        html \x7b\n            font-size: 16px;\n            -webkit-text-size-adjust: 100%;\n        \x7d\n        \n        body \x7b\n            font-family: ".data
def cssPart8 : Str := ";\n            background: var(--color-bg);\n            color: var(--color-text);\n            overflow: hidden;\n            min-height: 100vh;\n            min-height: 100dvh;\n        \x7d\n        \n        .slide \x7b\n            display: none;\n            width: 100vw;\n            height: 100vh;\n            height: 100dvh;\n            padding: var(--space-slide-padding-y) var(--space-slide-padding);\n            flex-direction: column;\n            justify-content: center;\n            overflow-y: auto;\n        \x7d\n        \n        .slide.active \x7b display: flex; \x7d\n        \n        .headline \x7b\n            font-size: var(--font-headline);\n            font-weight: ".data
def cssPart9 : Str := ";\n            letter-spacing: -0.02em;\n            line-height: 1.1;\n            margin-bottom: var(--space-gap-small);\n        \x7d\n        \n        .subhead \x7b\n            font-size: var(--font-subhead);\n            font-weight: 400;\n            color: var(--color-text-secondary);\n            line-height: 1.4;\n        \x7d\n        \n        .section-label \x7b\n            font-size: var(--font-small);\n            font-weight: 600;\n            text-transform: uppercase;\n            letter-spacing: 0.15em;\n            color: var(--color-accent);\n            margin-bottom: var(--space-gap-small);\n        \x7d\n        \n        .center \x7b text-align: center; align-items: center; \x7d\n        \n        .split \x7b\n            display: grid;\n            grid-template-columns: 1fr 1fr;\n            gap: var(--space-gap-large);\n            align-items: center;\n            height: 100%;\n        \x7d\n        \n        .thirds \x7b\n            display: grid;\n            grid-template-columns: repeat(auto-fit, minmax(min(280px, 100%), 1fr));\n            gap: var(--space-gap-medium);\n            margin-top: var(--space-element-margin);\n        \x7d\n        \n        .halves \x7b\n            display: grid;\n            grid-template-columns: repeat(auto-fit, minmax(min(300px, 100%), 1fr));\n            gap: var(--space-gap-medium);\n            margin-top: var(--space-element-margin);\n        \x7d\n        \n        .card \x7b\n            background: var(--color-card-bg);\n            border: 1px solid var(--color-border);\n            border-radius: clamp(12px, 2vw, 16px);\n            padding: var(--space-gap-medium);\n        \x7d\n        \n        .card-title \x7b\n            font-size: clamp(18px, 2.5vw, 22px);\n            font-weight: 600;\n            margin-bottom: var(--space-gap-small);\n            color: var(--color-accent);\n        \x7d\n        \n        .card-text \x7b\n            font-size: var(--font-body);\n            color: var(--color-text-secondary);\n            line-height: 1.6;\n        \x7d\n        \n        .bullet-list \x7b\n            list-style: none;\n            margin-top: var(--space-element-margin);\n        \x7d\n        \n        .bullet-list li \x7b\n            font-size: var(--font-body-large);\n            line-height: 1.6;\n            margin-bottom: var(--space-gap-small);\n            padding-left: clamp(28px, 4vw, 40px);\n            position: relative;\n            color: var(--color-text-secondary);\n        \x7d\n        \n        .bullet-list li::before \x7b\n            content: \"→\";\n            position: absolute;\n            left: 0;\n            color: var(--color-accent);\n        \x7d\n        \n        .numbered-list \x7b\n            list-style: none;\n            margin-top: var(--space-element-margin);\n            counter-reset: item;\n        \x7d\n        \n        .numbered-list li \x7b\n            font-size: var(--font-body-large);\n            line-height: 1.5;\n            margin-bottom: var(--space-gap-small);\n            padding-left: clamp(44px, 6vw, 60px);\n            position: relative;\n            color: var(--color-text-secondary);\n        \x7d\n        \n        .numbered-list li::before \x7b\n            counter-increment: item;\n            content: counter(item);\n            position: absolute;\n            left: 0;\n            width: clamp(32px, 4vw, 40px);\n            height: clamp(32px, 4vw, 40px);\n            background: var(--color-accent);\n            color: #fff;\n            border-radius: 50%;\n            display: flex;\n            align-items: center;\n            justify-content: center;\n            font-weight: 600;\n            font-size: clamp(14px, 2vw, 18px);\n        \x7d\n        \n        .code-block \x7b\n            background: var(--color-card-bg);\n            border: 1px solid var(--color-border);\n            border-radius: clamp(8px, 1.5vw, 12px);\n            padding: var(--space-gap-medium);\n            font-family: ".data
def cssPart10 : Str := ";\n            font-size: var(--font-code);\n            line-height: 1.6;\n            color: var(--color-accent-secondary);\n            margin: var(--space-gap-small) 0;\n            overflow-x: auto;\n            white-space: pre-wrap;\n            max-height: 60vh;\n        \x7d\n        \n        .stat-grid \x7b\n            display: grid;\n            grid-template-columns: repeat(auto-fit, minmax(min(150px, 100%), 1fr));\n            gap: var(--space-gap-medium);\n            margin-top: var(--space-element-margin);\n            text-align: center;\n        \x7d\n        \n        .stat-number \x7b\n            font-size: var(--font-stat);\n            font-weight: 700;\n            color: var(--color-accent);\n            margin-bottom: 8px;\n        \x7d\n        \n        .stat-label \x7b\n            font-size: var(--font-body);\n            color: var(--color-text-secondary);\n        \x7d\n        \n        .cta-button \x7b\n            display: inline-block;\n            padding: clamp(12px, 2vw, 16px) clamp(32px, 5vw, 48px);\n            background: var(--color-accent);\n            color: #fff;\n            text-decoration: none;\n            border-radius: 8px;\n            font-size: var(--font-body);\n            font-weight: 600;\n            margin-top: var(--space-element-margin);\n            transition: transform 0.2s ease;\n            min-height: 44px;\n            min-width: 44px;\n        \x7d\n        \n        .cta-button:hover \x7b transform: scale(1.05); \x7d\n        \n        .statement \x7b\n            font-size: clamp(20px, 4vw, 32px);\n            line-height: 1.5;\n            color: var(--color-text-secondary);\n            max-width: 900px;\n        \x7d\n        \n        table.data-table \x7b\n            width: 100%;\n            margin-top: var(--space-gap-medium);\n            border-collapse: collapse;\n        \x7d\n        \n        table.data-table th,\n        table.data-table td \x7b\n            padding: clamp(10px, 2vw, 16px) clamp(12px, 2.5vw, 20px);\n            text-align: left;\n            border-bottom: 1px solid var(--color-border);\n        \x7d\n        \n        table.data-table th \x7b\n            color: var(--color-accent);\n            font-weight: 600;\n            font-size: var(--font-small);\n            text-transform: uppercase;\n            letter-spacing: 0.05em;\n        \x7d\n        \n        table.data-table td \x7b\n            color: var(--color-text-secondary);\n            font-size: var(--font-body);\n        \x7d\n        \n        table.data-table tr:hover td \x7b\n            background: var(--color-card-bg);\n        \x7d\n        \n        .nav \x7b\n            position: fixed;\n            bottom: clamp(16px, 3vh, 30px);\n            left: 50%;\n            transform: translateX(-50%);\n            display: flex;\n            gap: 8px;\n            z-index: 100;\n        \x7d\n        \n        .nav-dot \x7b\n            width: 8px;\n            height: 8px;\n            border-radius: 50%;\n            background: ".data
def cssPart11 : Str := ";\n            cursor: pointer;\n            transition: all 0.3s ease;\n            min-width: 44px;\n            min-height: 44px;\n            display: flex;\n            align-items: center;\n            justify-content: center;\n            background-clip: content-box;\n            padding: 18px;\n        \x7d\n        \n        .nav-dot.active \x7b\n            background: var(--color-accent);\n            width: 24px;\n            border-radius: 4px;\n            background-clip: content-box;\n        \x7d\n        \n        .slide-counter \x7b\n            position: fixed;\n            bottom: clamp(16px, 3vh, 30px);\n            right: clamp(20px, 4vw, 40px);\n            font-size: var(--font-small);\n            color: ".data
def cssPart12 : Str := ";\n        \x7d\n        \n        /* Tablet and below */\n        @media (max-width: 768px) \x7b\n            .split \x7b\n                grid-template-columns: 1fr;\n                gap: var(--space-gap-medium);\n            \x7d\n        \x7d\n        \n        /* Landscape mobile */\n        @media (max-height: 500px) and (orientation: landscape) \x7b\n            .slide \x7b\n                justify-content: flex-start;\n                padding-top: var(--space-gap-medium);\n            \x7d\n        \x7d\n        \n        /* Reduced motion preference */\n        @media (prefers-reduced-motion: reduce) \x7b\n            *, *::before, *::after \x7b\n                animation-duration: 0.01ms !important;\n                animation-iteration-count: 1 !important;\n                transition-duration: 0.01ms !important;\n            \x7d\n        \x7d\n        ".data

-- Literal chunks of the document template in `render`; the
-- placeholders, in order, are: title[:60], css, slides_html, nav_js
def htmlPart0 : Str := "<!DOCTYPE html>\n<html lang=\"en\">\n<head>\n    <meta charset=\"UTF-8\">\n    <meta name=\"viewport\" content=\"width=device-width, initial-scale=1.0\">\n    <title>".data
def htmlPart1 : Str := "</title>\n    <style>\n        ".data
def htmlPart2 : Str := "\n    </style>\n</head>\n<body>\n    ".data
def htmlPart3 : Str := "\n    <div class=\"nav\" id=\"nav\"></div>\n    <div class=\"slide-counter\" id=\"counter\"></div>\n    <script>\n        ".data
def htmlPart4 : Str := "\n    </script>\n</body>\n</html>".data

/-- `_escape_html`: character-wise model of the replacement chain
`& → &amp;`, `< → &lt;`, `> → &gt;`, `" → &quot;`, `' → &#39;`.  The source
applies the five `str.replace` calls in this order, and since no replacement
string contains a character replaced by a later step, the chain acts exactly
like this single character-wise substitution. -/
def escapeChar (c : Char) : Str :=
  if c = '&' then "&amp;".data
  else if c = '<' then "&lt;".data
  else if c = '>' then "&gt;".data
  else if c = '"' then "&quot;".data
  else if c = '\'' then "&#39;".data
  else [c]

/-- `_escape_html`. -/
def escapeHtml (s : Str) : Str := s.flatMap escapeChar

/-- The inline background style attached when a slide carries a background
image blob (`_render_slide`). -/
def bgStyleOf : Option Str → Str
  | none => []
  | some img =>
    ("style=\"background-image: linear-gradient(rgba(0,0,0,0.5), rgba(0,0,0,0.7)), url(data:image/png;base64,".data)
      ++ img ++ ("); background-size: cover; background-position: center;\"".data)

/-- `_render_title_slide`. -/
def renderTitleSlide (title subtitle : Str) (active bgStyle : Str) : Str :=
  let t := escapeHtml title
  let st := escapeHtml subtitle
  let subtitleHtml :=
    if ¬ st = [] then ("<p class=\"subhead\">".data) ++ st ++ ("</p>".data) else []
  ("\n<div class=\"slide".data) ++ active ++ (" center\" ".data) ++ bgStyle ++
    (">\n    <h1 class=\"headline\">".data) ++ t ++ ("</h1>\n    ".data) ++
    subtitleHtml ++ ("\n</div>".data)

/-- `_render_statement_slide`. -/
def renderStatementSlide (title statement : Str) (active bgStyle : Str) : Str :=
  ("\n<div class=\"slide".data) ++ active ++ ("\" ".data) ++ bgStyle ++
    (">\n    <h2 class=\"headline\">".data) ++ escapeHtml title ++
    ("</h2>\n    <p class=\"statement\">".data) ++ escapeHtml statement ++
    ("</p>\n</div>".data)

/-- `_render_bullet_slide`. -/
def renderBulletSlide (title : Str) (points : List Str) (active bgStyle : Str) : Str :=
  let pointsHtml :=
    List.intercalate ("\n".data)
      (points.map fun p => ("        <li>".data) ++ escapeHtml p ++ ("</li>".data))
  ("\n<div class=\"slide".data) ++ active ++ ("\" ".data) ++ bgStyle ++
    (">\n    <h2 class=\"headline\">".data) ++ escapeHtml title ++
    ("</h2>\n    <ul class=\"bullet-list\">\n".data) ++ pointsHtml ++
    ("\n    </ul>\n</div>".data)

/-- `_render_numbered_slide`. -/
def renderNumberedSlide (title : Str) (items : List Str) (active bgStyle : Str) : Str :=
  let itemsHtml :=
    List.intercalate ("\n".data)
      (items.map fun it => ("        <li>".data) ++ escapeHtml it ++ ("</li>".data))
  ("\n<div class=\"slide".data) ++ active ++ ("\" ".data) ++ bgStyle ++
    (">\n    <h2 class=\"headline\">".data) ++ escapeHtml title ++
    ("</h2>\n    <ol class=\"numbered-list\">\n".data) ++ itemsHtml ++
    ("\n    </ol>\n</div>".data)

/-- `_render_cards_slide`. -/
def renderCardsSlide (title : Str) (cards : List Card) (active bgStyle : Str) : Str :=
  let gridClass := if 3 ≤ cards.length then "thirds".data else "halves".data
  let cardsHtml :=
    List.intercalate ("\n".data)
      ((cards.take 3).map fun c =>
        ("        <div class=\"card\">\n            <div class=\"card-title\">".data) ++
          escapeHtml c.title ++
          ("</div>\n            <div class=\"card-text\">".data) ++
          escapeHtml c.description ++ ("</div>\n        </div>".data))
  ("\n<div class=\"slide".data) ++ active ++ ("\" ".data) ++ bgStyle ++
    (">\n    <h2 class=\"headline\">".data) ++ escapeHtml title ++
    ("</h2>\n    <div class=\"".data) ++ gridClass ++ ("\">\n".data) ++ cardsHtml ++
    ("\n    </div>\n</div>".data)

/-- `_render_simple_slide` (used directly for tables without data; note that
its caller passes an already-escaped title there, which is escaped again,
exactly as the source does). -/
def renderSimpleSlide (title : Str) (active bgStyle : Str) : Str :=
  ("\n<div class=\"slide".data) ++ active ++ (" center\" ".data) ++ bgStyle ++
    (">\n    <h1 class=\"headline\">".data) ++ escapeHtml title ++
    ("</h1>\n</div>".data)

/-- `_render_table_slide`. -/
def renderTableSlide (title : Str) (tableData : List Row) (active bgStyle : Str) : Str :=
  let t := escapeHtml title
  match tableData with
  | [] => renderSimpleSlide t active bgStyle
  | row0 :: _ =>
    let headers := row0.map Prod.fst
    let headerHtml :=
      (headers.map fun h => ("<th>".data) ++ escapeHtml h ++ ("</th>".data)).flatten
    let rowsHtml :=
      ((tableData.take 6).map fun row =>
        ("        <tr>".data) ++
          (headers.map fun h =>
            ("<td>".data) ++ escapeHtml ((row.lookup h).getD []) ++ ("</td>".data)).flatten ++
          ("</tr>\n".data)).flatten
    ("\n<div class=\"slide".data) ++ active ++ ("\" ".data) ++ bgStyle ++
      (">\n    <h2 class=\"headline\">".data) ++ t ++
      ("</h2>\n    <table class=\"data-table\">\n        <thead><tr>".data) ++
      headerHtml ++ ("</tr></thead>\n        <tbody>\n".data) ++ rowsHtml ++
      ("        </tbody>\n    </table>\n</div>".data)

/-- `_render_code_slide` (the mapped `language` field is not used by the
template, as in the source). -/
def renderCodeSlide (title code : Str) (active bgStyle : Str) : Str :=
  ("\n<div class=\"slide".data) ++ active ++ ("\" ".data) ++ bgStyle ++
    (">\n    <h2 class=\"headline\">".data) ++ escapeHtml title ++
    ("</h2>\n    <pre class=\"code-block\">".data) ++ escapeHtml code ++
    ("</pre>\n</div>".data)

/-- `_render_architecture_slide`. -/
def renderArchitectureSlide (title description : Str) (points : List Str)
    (active bgStyle : Str) : Str :=
  let d := escapeHtml description
  let pointsHtml :=
    if points = [] then []
    else
      ("\n    <ul class=\"bullet-list\">\n".data) ++
        List.intercalate ("\n".data)
          ((points.take 4).map fun p => ("        <li>".data) ++ escapeHtml p ++ ("</li>".data)) ++
        ("\n    </ul>".data)
  let descHtml :=
    if ¬ d = [] then ("<p class=\"statement\">".data) ++ d ++ ("</p>".data) else []
  ("\n<div class=\"slide".data) ++ active ++ ("\" ".data) ++ bgStyle ++
    (">\n    <h2 class=\"headline\">".data) ++ escapeHtml title ++
    ("</h2>\n    ".data) ++ descHtml ++ ("\n    ".data) ++ pointsHtml ++
    ("\n</div>".data)

/-- `_render_stats_slide`. -/
def renderStatsSlide (title : Str) (stats : List Stat) (active bgStyle : Str) : Str :=
  let statsHtml :=
    List.intercalate ("\n".data)
      ((stats.take 3).map fun s =>
        ("        <div>\n            <div class=\"stat-number\">".data) ++
          escapeHtml s.number ++
          ("</div>\n            <div class=\"stat-label\">".data) ++
          escapeHtml s.label ++ ("</div>\n        </div>".data))
  ("\n<div class=\"slide".data) ++ active ++ ("\" ".data) ++ bgStyle ++
    (">\n    <h2 class=\"headline\">".data) ++ escapeHtml title ++
    ("</h2>\n    <div class=\"stat-grid\">\n".data) ++ statsHtml ++
    ("\n    </div>\n</div>".data)

/-- `_render_cta_slide`. -/
def renderCtaSlide (title subtitle : Str) (active bgStyle : Str) : Str :=
  let t := escapeHtml title
  let st := escapeHtml subtitle
  let subtitleHtml :=
    if ¬ st = [] then ("<p class=\"subhead\">".data) ++ st ++ ("</p>".data) else []
  ("\n<div class=\"slide".data) ++ active ++ (" center\" ".data) ++ bgStyle ++
    (">\n    <h1 class=\"headline\">".data) ++ t ++ ("</h1>\n    ".data) ++
    subtitleHtml ++ ("\n</div>".data)

/-- `_render_slide`.  The source dispatches on the `layout` string; designer
output pairs each layout name with the matching typed content, so this model
dispatches on the content constructor (the typed form of the same tag). -/
def renderSlide (s : MappedSlide) (isFirst : Bool) : Str :=
  let active := if isFirst then " active".data else []
  let bg := bgStyleOf s.backgroundImage
  match s.content with
  | .titleC t st _ => renderTitleSlide t st active bg
  | .statementC t st => renderStatementSlide t st active bg
  | .bulletC t ps => renderBulletSlide t ps active bg
  | .numberedC t its => renderNumberedSlide t its active bg
  | .cardsC t cs => renderCardsSlide t cs active bg
  | .tableC t tb => renderTableSlide t tb active bg
  | .codeC t cd _ => renderCodeSlide t cd active bg
  | .archC t d ps => renderArchitectureSlide t d ps active bg
  | .statC t sts => renderStatsSlide t sts active bg
  | .ctaC t st _ _ => renderCtaSlide t st active bg

/-- `_render_slides`: the first slide gets the `active` flag; fragments are
joined with newlines. -/
def renderSlides (slides : List MappedSlide) : Str :=
  List.intercalate ("\n".data) (slides.enum.map fun p => renderSlide p.2 (p.1 = 0))

/-- `_generate_css`: theme colors and typography (with the documented
defaults) interpolated into the fixed stylesheet template. -/
def generateCss (theme : ThemeCfg) : Str :=
  let colors := theme.colors
  let typography := theme.typography
  let bg := colors.background.getD ("#000".data)
  let textPrimary := colors.textPrimary.getD ("#fff".data)
  let textSecondary := colors.textSecondary.getD ("rgba(255,255,255,0.7)".data)
  let accent := colors.accent.getD ("#0A84FF".data)
  let accentSecondary := colors.accentSecondary.getD ("#98D4A0".data)
  let cardBg := colors.cardBg.getD ("rgba(255,255,255,0.05)".data)
  let border := colors.border.getD ("rgba(255,255,255,0.1)".data)
  let primaryFont := typography.primaryFont.getD ("-apple-system, BlinkMacSystemFont, sans-serif".data)
  let codeFont := typography.codeFont.getD ("\x27SF Mono\x27, \x27Consolas\x27, monospace".data)
  let headlineWeight := typography.headlineWeight.getD ("700".data)
  let isDark :=
    listStartsWith bg ("#0".data) || listStartsWith bg ("#1".data) ||
      listStartsWith bg ("#2".data)
  let navDotInactive :=
    if isDark then "rgba(255,255,255,0.3)".data else "rgba(0,0,0,0.3)".data
  let counterColor :=
    if isDark then "rgba(255,255,255,0.4)".data else "rgba(0,0,0,0.4)".data
  cssPart0 ++ bg ++ cssPart1 ++ textPrimary ++ cssPart2 ++ textSecondary ++
    cssPart3 ++ accent ++ cssPart4 ++ accentSecondary ++ cssPart5 ++ cardBg ++
    cssPart6 ++ border ++ cssPart7 ++ primaryFont ++ cssPart8 ++ headlineWeight ++
    cssPart9 ++ codeFont ++ cssPart10 ++ navDotInactive ++ cssPart11 ++
    counterColor ++ cssPart12

/-- `render`: the full document.  The source looks the theme up from its
YAML file (an external collaborator); here the already-parsed `ThemeCfg` is
passed directly.  Note that the `title` parameter is interpolated into the
`<title>` element exactly as the source does: truncated to 60 characters and
NOT HTML-escaped. -/
def renderDoc (slides : List MappedSlide) (theme : ThemeCfg) (title : Str) : Str :=
  htmlPart0 ++ title.take 60 ++ htmlPart1 ++ generateCss theme ++ htmlPart2 ++
    renderSlides slides ++ htmlPart3 ++ navJs ++ htmlPart4

/-! ## Concrete configurations used by witnesses and counterexamples -/

/-- A theme configuration with every optional field absent and no triggers. -/
def demoTheme : ThemeCfg :=
  ⟨[], ⟨none, none, none, none, none, none, none⟩, ⟨none, none, none⟩, ⟨[], [], false, none⟩⟩

/-- A theme configuration whose only trigger is the `technical` content type. -/
def techTheme : ThemeCfg :=
  ⟨[], ⟨none, none, none, none, none, none, none⟩, ⟨none, none, none⟩,
    ⟨["technical".data], [], false, none⟩⟩

/-- A content brief classified as technical content for a mixed audience. -/
def demoBrief : ContentBrief := ⟨"technical".data, "mixed".data, false, 0⟩

/-! ## Theorems -/

/-- Claim C8: a `metrics` SlideSpec with an empty stats list produces no
MappedSlide (silently dropped, no error), and with a non-empty stats list a
`stat_grid` MappedSlide is produced. -/
theorem claim_C8_metrics :
    ∀ (t : Str) (theme : ThemeCfg) (tn : Str),
      designSlide (SlideSpec.metrics t []) theme tn = none ∧
      ∀ (st : Stat) (sts : List Stat),
        designSlide (SlideSpec.metrics t (st :: sts)) theme tn =
          some ⟨"stat_grid".data, tn, MappedContent.statC t (st :: sts), none⟩ := by
  intro t theme tn
  exact ⟨by simp [designSlide], fun st sts => by simp [designSlide]⟩

/-- Claim C9: every pipeline stage (classification, planning, theme
selection, layout mapping, rendering) is a deterministic function of its
inputs: two invocations on the same inputs give equal (byte-identical)
results.  In this embedding each stage is a pure function, reflecting the
absence of any randomness in the source. -/
theorem claim_C9_deterministic :
    (∀ text : Str,
      determineContentType text = determineContentType text ∧
      determineAudience text = determineAudience text ∧
      determineTone text = determineTone text ∧
      assessTechnicalDepth text = assessTechnicalDepth text) ∧
    (∀ (text : Str) (files : List Str),
      detectCodeContent text files = detectCodeContent text files) ∧
    (∀ (d : Str) (s : List Section) (t : Str),
      generateSlides d s t = generateSlides d s t) ∧
    (∀ (themes : List (Str × ThemeCfg)) (b : ContentBrief) (f : Str),
      selectTheme themes b f = selectTheme themes b f) ∧
    (∀ (sl : List SlideSpec) (th : ThemeCfg) (tn : Str),
      designSlides sl th tn = designSlides sl th tn) ∧
    (∀ (ms : List MappedSlide) (th : ThemeCfg) (ti : Str),
      renderDoc ms th ti = renderDoc ms th ti) :=
  ⟨fun _ => ⟨rfl, rfl, rfl, rfl⟩, fun _ _ => rfl, fun _ _ _ => rfl,
   fun _ _ _ => rfl, fun _ _ _ => rfl, fun _ _ _ => rfl⟩

/-- Claim C2 (amended): a non-empty forced theme name that matches no loaded
theme, neither exactly nor after `-`-to-`_` normalization, never fails: the
selector falls through to trigger-based auto-selection, behaving exactly as
if no theme had been forced (so the fixed default is returned only when no
theme scores above zero). -/
theorem claim_C2_fallback (themes : List (Str × ThemeCfg)) (brief : ContentBrief)
    (f : Str) (h1 : ¬ f = [])
    (h2 : themes.any (fun p => p.1 == f) = false)
    (h3 : themes.any (fun p => p.1 == normalizeThemeName f) = false) :
    selectTheme themes brief f = selectTheme themes brief [] := by
  simp [selectTheme, h1, h2, h3]

/-- Witness for claim C2's theorem at a concrete unknown forced name. -/
theorem claim_C2_fallback_witness :
    selectTheme [("modern_tech".data, techTheme)] demoBrief ("missing-theme".data) =
      selectTheme [("modern_tech".data, techTheme)] demoBrief [] :=
  claim_C2_fallback _ _ _ (by decide) (by decide) (by decide)

/-- Counterexample for claim C2 as stated: with a loaded theme triggered by
the brief's content type, an unknown forced name yields that theme, not the
fixed default `keynote_minimalist`. -/
theorem claim_C2_counterexample :
    ([("modern_tech".data, techTheme)].any (fun p => p.1 == "nope".data) = false) ∧
    ([("modern_tech".data, techTheme)].any
      (fun p => p.1 == normalizeThemeName ("nope".data)) = false) ∧
    selectTheme [("modern_tech".data, techTheme)] demoBrief ("nope".data) =
      "modern_tech".data ∧
    ¬ "modern_tech".data = "keynote_minimalist".data := by
  refine ⟨by decide, by decide, ?_, by decide⟩
  have h1 : ¬ ("nope".data : Str) = [] := by decide
  have h2 : ([("modern_tech".data, techTheme)].any (fun p => p.1 == "nope".data)) = false := by
    decide
  have h3 : ([("modern_tech".data, techTheme)].any
      (fun p => p.1 == normalizeThemeName ("nope".data))) = false := by decide
  have hs : scoreTheme demoBrief techTheme = 2 := by
    have hc : (techTheme.triggers.contentTypes.contains demoBrief.contentType) = true := by
      decide
    have ha : (techTheme.triggers.audiences.contains demoBrief.audience) = false := by decide
    simp only [scoreTheme, hc, ha, if_true, if_false, Bool.false_and, techTheme, demoBrief]
    norm_num
  simp only [selectTheme, h1, h2, h3, if_true, if_false, not_false_iff, Bool.false_eq_true,
    ite_false, ite_true]
  simp only [selectThemeAuto, List.map_cons, List.map_nil, argmaxFirst, List.foldl_cons,
    List.foldl_nil, amStep, hs]
  norm_num

/-- Filtering with a pointwise weaker predicate keeps at most as many
elements. -/
theorem filterLenMono {α : Type} (l : List α) (p q : α → Bool)
    (h : ∀ a ∈ l, p a = true → q a = true) :
    (l.filter p).length ≤ (l.filter q).length := by
  induction l with
  | nil => simp
  | cons a t ih =>
    have ht : ∀ x ∈ t, p x = true → q x = true :=
      fun x hx => h x (List.mem_cons_of_mem _ hx)
    by_cases hp : p a = true
    · have hq : q a = true := h a (List.mem_cons_self _ _) hp
      simp only [List.filter_cons, hp, hq, if_true, List.length_cons]
      exact Nat.succ_le_succ (ih ht)
    · simp only [List.filter_cons, Bool.not_eq_true] at hp ⊢
      rw [hp]
      by_cases hq : q a = true
      · rw [hq]
        simp only [List.length_cons]
        exact Nat.le_succ_of_le (ih ht)
      · simp only [Bool.not_eq_true] at hq
        rw [hq]
        exact ih ht

/-- Claim C7: the technical-depth score is monotone in the set of distinct
technical-term hits, always lies in `[0, 1]`, and equals exactly `1` as soon
as at least five distinct vocabulary terms occur in the text. -/
theorem claim_C7_depth :
    (∀ t1 t2 : Str,
      (∀ term ∈ technicalTerms,
        pyIn term (lowerStr t1) = true → pyIn term (lowerStr t2) = true) →
      assessTechnicalDepth t1 ≤ assessTechnicalDepth t2) ∧
    (∀ t : Str, 0 ≤ assessTechnicalDepth t ∧ assessTechnicalDepth t ≤ 1) ∧
    (∀ t : Str, 5 ≤ termMatches t → assessTechnicalDepth t = 1) := by
  refine ⟨?_, ?_, ?_⟩
  · intro t1 t2 h
    have hm : termMatches t1 ≤ termMatches t2 :=
      filterLenMono technicalTerms _ _ h
    have hq : ((termMatches t1 : ℚ)) ≤ (termMatches t2 : ℚ) := by exact_mod_cast hm
    unfold assessTechnicalDepth
    exact min_le_min (by linarith) le_rfl
  · intro t
    unfold assessTechnicalDepth
    constructor
    · exact le_min (by positivity) (by norm_num)
    · exact min_le_right _ _
  · intro t h
    unfold assessTechnicalDepth
    have h5 : (5 : ℚ) ≤ (termMatches t : ℚ) := by exact_mod_cast h
    have : (1 : ℚ) ≤ (termMatches t : ℚ) / 5 := by
      rw [le_div_iff₀ (by norm_num : (0:ℚ) < 5)]
      linarith
    exact min_eq_right this

/-- Witness for claim C7's theorem: monotonicity applied to two empty texts,
and saturation on a text containing five vocabulary terms. -/
theorem claim_C7_depth_witness :
    assessTechnicalDepth [] ≤ assessTechnicalDepth [] ∧
    assessTechnicalDepth ("api database cache queue async".data) = 1 :=
  ⟨claim_C7_depth.1 [] [] (by decide), claim_C7_depth.2.2 _ (by decide)⟩

/-- With the full five-template list and minimum count 4, the expansion loop
always adds exactly the first three templates after the head slide. -/
theorem expandLoopFour (x a b c d e : SlideSpec) :
    expandLoop [x] [a, b, c, d, e] 4 = [x, a, b, c] := rfl

/-- Claim C4: for every description, section list and combined text, the
planned slide sequence is non-empty, starts with the title SlideSpec and
ends with the cta SlideSpec "Thank You" / "Questions?". -/
theorem claim_C4_endpoints (d : Str) (s : List Section) (t : Str) :
    ∃ mid : List SlideSpec,
      generateSlides d s t =
        SlideSpec.title (extractTitle d s) (extractSubtitle s t) ::
          (mid ++ [SlideSpec.cta ("Thank You".data) ("Questions?".data)]) := by
  unfold generateSlides planExpand
  by_cases h :
      (SlideSpec.title (extractTitle d s) (extractSubtitle s t) ::
        s.flatMap slidesForSection).length < 5 - 1
  · rw [if_pos h]
    refine ⟨challengeSlide d :: insightsSlide :: approachSlide :: s.flatMap slidesForSection, ?_⟩
    simp only [expandSlides, expansionTemplates]
    rw [show (5 - 1 : Nat) = 4 from rfl, expandLoopFour]
    simp
  · rw [if_neg h]
    exact ⟨s.flatMap slidesForSection, by simp⟩

/-- Claim C1 (amended): whenever the section pass produces fewer than three
organic slides (so that, with the title slide, fewer than four slides exist
before expansion), the planner inserts exactly the first three filler slides
of the fixed sequence — the challenge statement, the key-insights points and
the approach points; the benefits cards and next-steps fillers are never
reached — immediately after the title slide, and then appends all organic
slides after the filler, before the final cta slide. -/
theorem claim_C1_filler (d : Str) (s : List Section) (t : Str)
    (h : (s.flatMap slidesForSection).length + 1 < 4) :
    generateSlides d s t =
      SlideSpec.title (extractTitle d s) (extractSubtitle s t) ::
        challengeSlide d :: insightsSlide :: approachSlide ::
        (s.flatMap slidesForSection ++
          [SlideSpec.cta ("Thank You".data) ("Questions?".data)]) := by
  unfold generateSlides planExpand
  have h' :
      (SlideSpec.title (extractTitle d s) (extractSubtitle s t) ::
        s.flatMap slidesForSection).length < 5 - 1 := by
    simp only [List.length_cons]
    omega
  rw [if_pos h']
  simp only [expandSlides, expansionTemplates]
  rw [show (5 - 1 : Nat) = 4 from rfl, expandLoopFour]
  simp

/-- Witness for claim C1's theorem: a description with no sections at all
receives the title slide, the three fillers, and the closing cta. -/
theorem claim_C1_filler_witness :
    generateSlides ("sales pitch".data) [] [] =
      [SlideSpec.title ("sales pitch".data) [],
       SlideSpec.statement ("The Challenge".data)
         ("Understanding the key challenges and opportunities in sales pitch.".data),
       insightsSlide, approachSlide,
       SlideSpec.cta ("Thank You".data) ("Questions?".data)] :=
  (claim_C1_filler ("sales pitch".data) [] [] (by decide)).trans (by decide)

/-- Three sections with neutral titles and two bullets each, yielding three
organic slides. -/
def cxSections : List Section :=
  [⟨2, "Alpha".data, "- a\n- b".data, []⟩,
   ⟨2, "Beta".data, "- a\n- b".data, []⟩,
   ⟨2, "Gamma".data, "- a\n- b".data, []⟩]

/-- Counterexample for claim C1 as stated: an input whose section pass
produces exactly three organic slides (fewer than four), for which the
planner inserts no filler at all — the output is just the title slide, the
three organic slides and the cta slide. -/
theorem claim_C1_counterexample :
    (cxSections.flatMap slidesForSection).length = 3 ∧
    generateSlides ("topic overview".data) cxSections [] =
      [SlideSpec.title ("topic overview".data) [],
       SlideSpec.points ("Alpha".data) ["a".data, "b".data],
       SlideSpec.points ("Beta".data) ["a".data, "b".data],
       SlideSpec.points ("Gamma".data) ["a".data, "b".data],
       SlideSpec.cta ("Thank You".data) ("Questions?".data)] ∧
    ¬ challengeSlide ("topic overview".data) ∈
        generateSlides ("topic overview".data) cxSections [] := by
  refine ⟨by decide, by decide, by decide⟩

/-- Folding the maximum search from a seed entry yields an entry of maximal
score among the seed and the list, preferring earlier entries on ties. -/
theorem argmaxFoldSome (l : List (Str × ℚ)) (b : Str × ℚ) :
    ∃ p, l.foldl amStep (some b) = some p ∧ (p = b ∨ p ∈ l) ∧ b.2 ≤ p.2 ∧
      ∀ q ∈ l, q.2 ≤ p.2 := by
  induction l generalizing b with
  | nil => exact ⟨b, rfl, Or.inl rfl, le_refl _, by simp⟩
  | cons a t ih =>
    rw [List.foldl_cons]
    by_cases hc : b.2 < a.2
    · rw [show amStep (some b) a = some a by simp [amStep, hc]]
      obtain ⟨p, hfold, hmem, hle, hall⟩ := ih a
      refine ⟨p, hfold, ?_, le_of_lt (lt_of_lt_of_le hc hle), ?_⟩
      · rcases hmem with h | h
        · exact Or.inr (h ▸ List.mem_cons_self a t)
        · exact Or.inr (List.mem_cons_of_mem _ h)
      · intro q hq
        rcases List.mem_cons.mp hq with h | h
        · exact h ▸ hle
        · exact hall q h
    · rw [show amStep (some b) a = some b by simp [amStep, hc]]
      obtain ⟨p, hfold, hmem, hle, hall⟩ := ih b
      refine ⟨p, hfold, ?_, hle, ?_⟩
      · rcases hmem with h | h
        · exact Or.inl h
        · exact Or.inr (List.mem_cons_of_mem _ h)
      · intro q hq
        rcases List.mem_cons.mp hq with h | h
        · exact h ▸ le_trans (le_of_not_lt hc) hle
        · exact hall q h

/-- On a non-empty score list, the maximum search returns a member of
maximal score. -/
theorem argmaxFirstSpec (l : List (Str × ℚ)) (hne : ¬ l = []) :
    ∃ p, argmaxFirst l = some p ∧ p ∈ l ∧ ∀ q ∈ l, q.2 ≤ p.2 := by
  match l, hne with
  | a :: t, _ =>
    unfold argmaxFirst
    rw [List.foldl_cons, show amStep none a = some a from rfl]
    obtain ⟨p, hfold, hmem, hle, hall⟩ := argmaxFoldSome t a
    refine ⟨p, hfold, ?_, ?_⟩
    · rcases hmem with h | h
      · exact h ▸ List.mem_cons_self a t
      · exact List.mem_cons_of_mem _ h
    · intro q hq
      rcases List.mem_cons.mp hq with h | h
      · exact h ▸ hle
      · exact hall q h

/-- Claim C5: the trigger score of a theme is the sum of the four
contributions (+2 content type, +1 audience, +1.5 has-code, +1.5 parseable
technical-depth range; an absent or malformed range contributes 0); with no
theme forced, the selector returns a loaded theme of maximal score whenever
some theme scores strictly above zero, and the fixed default
`keynote_minimalist` when no theme does. -/
theorem claim_C5_scoring (brief : ContentBrief) (themes : List (Str × ThemeCfg)) :
    (∀ cfg : ThemeCfg,
      scoreTheme brief cfg =
        (if cfg.triggers.contentTypes.contains brief.contentType then (2 : ℚ) else 0) +
        (if cfg.triggers.audiences.contains brief.audience then (1 : ℚ) else 0) +
        (if cfg.triggers.hasCode && brief.hasCode then (3/2 : ℚ) else 0) +
        (match cfg.triggers.technicalDepth with
         | some r =>
           if r.1 ≤ brief.technicalDepth ∧ brief.technicalDepth ≤ r.2 then (3/2 : ℚ) else 0
         | none => 0)) ∧
    ((∃ p ∈ themes, 0 < scoreTheme brief p.2) →
      ∃ p ∈ themes, selectTheme themes brief [] = p.1 ∧
        ∀ q ∈ themes, scoreTheme brief q.2 ≤ scoreTheme brief p.2) ∧
    ((∀ p ∈ themes, scoreTheme brief p.2 ≤ 0) →
      selectTheme themes brief [] = "keynote_minimalist".data) := by
  refine ⟨?_, ?_, ?_⟩
  · intro cfg
    unfold scoreTheme
    rcases hd : cfg.triggers.technicalDepth with _ | ⟨lo, hi⟩ <;>
      simp only [hd] <;> split_ifs <;> ring
  · rintro ⟨p0, hp0, hpos⟩
    have hne : ¬ (themes.map fun p => (p.1, scoreTheme brief p.2)) = [] := by
      simp only [List.map_eq_nil_iff]
      exact List.ne_nil_of_mem hp0
    obtain ⟨pm, hArg, hMem, hAll⟩ := argmaxFirstSpec _ hne
    obtain ⟨q, hqmem, hq⟩ := List.mem_map.mp hMem
    have hposm : 0 < pm.2 := by
      have h1 : (p0.1, scoreTheme brief p0.2) ∈ themes.map fun p => (p.1, scoreTheme brief p.2) :=
        List.mem_map.mpr ⟨p0, hp0, rfl⟩
      exact lt_of_lt_of_le hpos (hAll _ h1)
    refine ⟨q, hqmem, ?_, ?_⟩
    · show selectTheme themes brief [] = q.1
      have : selectTheme themes brief [] = selectThemeAuto themes brief := by
        simp [selectTheme]
      rw [this]
      unfold selectThemeAuto
      rw [hArg]
      change (if 0 < pm.2 then pm.1 else "keynote_minimalist".data) = q.1
      rw [if_pos hposm, ← hq]
    · intro r hr
      have h2 : (r.1, scoreTheme brief r.2) ∈ themes.map fun p => (p.1, scoreTheme brief p.2) :=
        List.mem_map.mpr ⟨r, hr, rfl⟩
      have := hAll _ h2
      rw [← hq] at this
      exact this
  · intro hall
    have : selectTheme themes brief [] = selectThemeAuto themes brief := by
      simp [selectTheme]
    rw [this]
    unfold selectThemeAuto
    match hth : themes with
    | [] => rfl
    | a :: t =>
      have hne : ¬ ((a :: t).map fun p => (p.1, scoreTheme brief p.2)) = [] := by simp
      obtain ⟨pm, hArg, hMem, _⟩ := argmaxFirstSpec _ hne
      obtain ⟨q, hqmem, hq⟩ := List.mem_map.mp hMem
      rw [hArg]
      change (if 0 < pm.2 then pm.1 else "keynote_minimalist".data) = _
      have : ¬ 0 < pm.2 := by
        rw [← hq]
        exact not_lt_of_ge (hall q hqmem)
      rw [if_neg this]

/-- Witness for claim C5's theorem: with a zero-scoring theme listed before a
theme whose content-type trigger fires, the selector picks the triggered
theme, which has maximal score. -/
theorem claim_C5_scoring_witness :
    ∃ p ∈ [("plain".data, demoTheme), ("modern".data, techTheme)],
      selectTheme [("plain".data, demoTheme), ("modern".data, techTheme)] demoBrief [] = p.1 ∧
      ∀ q ∈ [("plain".data, demoTheme), ("modern".data, techTheme)],
        scoreTheme demoBrief q.2 ≤ scoreTheme demoBrief p.2 :=
  (claim_C5_scoring demoBrief [("plain".data, demoTheme), ("modern".data, techTheme)]).2.1
    ⟨("modern".data, techTheme), by decide, by
      show 0 < scoreTheme demoBrief techTheme
      have hc : (techTheme.triggers.contentTypes.contains demoBrief.contentType) = true := by
        decide
      have ha : (techTheme.triggers.audiences.contains demoBrief.audience) = false := by decide
      simp only [scoreTheme, hc, ha, if_true, if_false, Bool.false_and, techTheme, demoBrief]
      norm_num⟩

/-- A line that opens a section: an H2 or H3 heading. -/
def isHead (l : Str) : Bool := isH2 l || isH3 l

/-- The section title contributed by a heading line. -/
def lineTitle (l : Str) : Str :=
  if isH2 l then headingTitle l 2 else headingTitle l 3

/-- The pending title of the currently open section, if any. -/
def curTitles : Option CurSec → List Str
  | none => []
  | some c => [c.title]

/-- The titles of the sections produced by the parser's line scan: the open
section's title followed by one title per heading line, in source order. -/
theorem parseLoopTitles (lines : List Str) : ∀ (cur : Option CurSec) (acc : List Str),
    (parseLoop lines cur acc).map Section.title =
      curTitles cur ++ (lines.filter isHead).map lineTitle := by
  induction lines with
  | nil =>
    intro cur acc
    cases cur <;> simp [parseLoop, closeList, closeSec, curTitles]
  | cons line rest ih =>
    intro cur acc
    by_cases h2 : isH2 line = true
    · have hh : isHead line = true := by simp [isHead, h2]
      simp only [parseLoop, h2, if_true, List.map_append, ih, List.filter_cons, hh]
      cases cur <;> simp [closeList, closeSec, curTitles, lineTitle, h2, ih]
    · by_cases h3 : isH3 line = true
      · have hh : isHead line = true := by simp [isHead, h3]
        simp only [parseLoop, h2, h3, if_true, if_false, List.map_append, ih,
          List.filter_cons, hh]
        cases cur <;> simp [closeList, closeSec, curTitles, lineTitle, h2, h3, ih]
      · have hh : isHead line = false := by simp [isHead, h2, h3]
        by_cases h4 : isH4 line = true
        · simp only [parseLoop, h2, h3, h4, if_true, if_false]
          cases cur with
          | none => simp [ih, List.filter_cons, hh, curTitles]
          | some c => simp [ih, List.filter_cons, hh, curTitles]
        · simp only [parseLoop, h2, h3, h4, if_false]
          simp [ih, List.filter_cons, hh]

/-- While no section is open, the discarded content buffer is irrelevant. -/
theorem parseLoopNoneAcc (lines : List Str) :
    ∀ acc₁ acc₂, parseLoop lines none acc₁ = parseLoop lines none acc₂ := by
  induction lines with
  | nil => intro acc₁ acc₂; simp [parseLoop, closeList]
  | cons line rest ih =>
    intro acc₁ acc₂
    by_cases h2 : isH2 line = true
    · simp [parseLoop, h2, closeList]
    · by_cases h3 : isH3 line = true
      · simp [parseLoop, h2, h3, closeList]
      · by_cases h4 : isH4 line = true
        · simp only [parseLoop, h2, h3, h4, if_true, if_false]
          exact ih _ _
        · simp only [parseLoop, h2, h3, h4, if_false]
          exact ih _ _

/-- Non-heading lines before the first heading are discarded entirely. -/
theorem parseLoopSkip (pre : List Str) :
    ∀ rest acc, (∀ l ∈ pre, isHead l = false) →
      parseLoop (pre ++ rest) none acc = parseLoop rest none acc := by
  induction pre with
  | nil => intro rest acc _; rfl
  | cons line p ih =>
    intro rest acc h
    have hline : isHead line = false := h line (List.mem_cons_self _ _)
    have h2 : ¬ isH2 line = true := by
      intro hx; simp [isHead, hx] at hline
    have h3 : ¬ isH3 line = true := by
      intro hx; simp [isHead, hx] at hline
    have hrest : ∀ l ∈ p, isHead l = false := fun l hl => h l (List.mem_cons_of_mem _ hl)
    by_cases h4 : isH4 line = true
    · simp only [List.cons_append, parseLoop, h2, h3, h4, if_true, if_false]
      exact (ih _ _ hrest).trans (parseLoopNoneAcc _ _ _)
    · simp only [List.cons_append, parseLoop, h2, h3, h4, if_false]
      exact (ih _ _ hrest).trans (parseLoopNoneAcc _ _ _)

/-- If stripping a string gives the empty string, every character was
whitespace. -/
theorem pyStripNil (s : Str) (h : pyStrip s = []) : ∀ c ∈ s, pyIsSpace c = true := by
  unfold pyStrip at h
  have h1 : (s.dropWhile pyIsSpace).reverse.dropWhile pyIsSpace = [] :=
    List.reverse_eq_nil_iff.mp h
  have h3 : ∀ c ∈ s.dropWhile pyIsSpace, pyIsSpace c = true := fun c hc =>
    List.dropWhile_eq_nil_iff.mp h1 c (List.mem_reverse.mpr hc)
  intro c hc
  rw [← List.takeWhile_append_dropWhile (p := pyIsSpace) (l := s)] at hc
  rcases List.mem_append.mp hc with hx | hx
  · exact List.mem_takeWhile_imp hx
  · exact h3 c hx

/-- Every character of a piece of a split string occurs in the original. -/
theorem splitOnCharMemSub (sep : Char) :
    ∀ (s l : Str), l ∈ splitOnChar sep s → ∀ c ∈ l, c ∈ s := by
  intro s
  induction s with
  | nil =>
    intro l hl c hc
    simp [splitOnChar] at hl
    subst hl
    simp at hc
  | cons a t ih =>
    intro l hl c hc
    by_cases ha : a = sep
    · rw [show splitOnChar sep (a :: t) = [] :: splitOnChar sep t by
        simp [splitOnChar, ha]] at hl
      rcases List.mem_cons.mp hl with h | h
      · subst h; simp at hc
      · exact List.mem_cons_of_mem _ (ih l h c hc)
    · have hdef : splitOnChar sep (a :: t) =
          (match splitOnChar sep t with
           | [] => [[a]]
           | l :: ls => (a :: l) :: ls) := by
        simp [splitOnChar, ha]
      rcases hsp : splitOnChar sep t with _ | ⟨l', ls⟩
      · rw [hdef, hsp] at hl
        have hl' : l ∈ [[a]] := hl
        simp at hl'
        subst hl'
        simp at hc
        subst hc
        exact List.mem_cons_self _ _
      · rw [hdef, hsp] at hl
        have hl' : l ∈ (a :: l') :: ls := hl
        rcases List.mem_cons.mp hl' with h | h
        · subst h
          rcases List.mem_cons.mp hc with hx | hx
          · exact hx ▸ List.mem_cons_self _ _
          · exact List.mem_cons_of_mem _ (ih l' (hsp ▸ List.mem_cons_self _ _) c hx)
        · exact List.mem_cons_of_mem _ (ih l (hsp ▸ List.mem_cons_of_mem _ h) c hc)

/-- An H2 heading line contains a `#`. -/
theorem isH2Mem (l : Str) (h : isH2 l = true) : '#' ∈ l := by
  unfold isH2 at h
  split at h
  · exact List.mem_cons_self _ _
  · exact absurd h (by simp)

/-- An H3 heading line contains a `#`. -/
theorem isH3Mem (l : Str) (h : isH3 l = true) : '#' ∈ l := by
  unfold isH3 at h
  split at h
  · exact List.mem_cons_self _ _
  · exact absurd h (by simp)

/-- A line of pure whitespace is not a heading. -/
theorem isHeadFalseOfSpace (l : Str) (h : ∀ c ∈ l, pyIsSpace c = true) :
    isHead l = false := by
  rw [isHead]
  have h2 : isH2 l = false := by
    by_contra hx
    rw [Bool.not_eq_false] at hx
    have := h '#' (isH2Mem l hx)
    simp [pyIsSpace] at this
  have h3 : isH3 l = false := by
    by_contra hx
    rw [Bool.not_eq_false] at hx
    have := h '#' (isH3Mem l hx)
    simp [pyIsSpace] at this
  simp [h2, h3]

/-- Claim C6: input text with no heading line parses to the empty section
sequence; in general the parser returns exactly one section per H2/H3
heading line, in source order (witnessed by the titles), and everything
before the first heading line is discarded (parsing is unchanged when the
leading non-heading lines are dropped). -/
theorem claim_C6_sections (content : Str) :
    ((∀ l ∈ splitNl content, isHead l = false) → parseMarkdownSections content = []) ∧
    (parseMarkdownSections content).map Section.title =
      ((splitNl content).filter isHead).map lineTitle ∧
    parseMarkdownSections content =
      parseLoop ((splitNl content).dropWhile (fun l => !(isHead l))) none [] := by
  by_cases hs : pyStrip content = []
  · have hall : ∀ l ∈ splitNl content, isHead l = false := by
      intro l hl
      exact isHeadFalseOfSpace l fun c hc =>
        pyStripNil content hs c (splitOnCharMemSub '\n' content l hl c hc)
    have hpz : parseMarkdownSections content = [] := by simp [parseMarkdownSections, hs]
    refine ⟨fun _ => hpz, ?_, ?_⟩
    · rw [hpz, List.filter_eq_nil_iff.mpr fun l hl => by simp [hall l hl]]
      rfl
    · rw [hpz, List.dropWhile_eq_nil_iff.mpr fun l hl => by simp [hall l hl]]
      rfl
  · have hpm : parseMarkdownSections content = parseLoop (splitNl content) none [] := by
      simp [parseMarkdownSections, hs]
    refine ⟨?_, ?_, ?_⟩
    · intro hall
      have hf : (splitNl content).filter isHead = [] :=
        List.filter_eq_nil_iff.mpr fun l hl => by simp [hall l hl]
      have ht := parseLoopTitles (splitNl content) none []
      rw [hf] at ht
      have ht' : (parseLoop (splitNl content) none []).map Section.title = [] := by
        simpa [curTitles] using ht
      rw [hpm]
      cases hpl : parseLoop (splitNl content) none [] with
      | nil => rfl
      | cons a l => rw [hpl] at ht'; simp at ht'
    · rw [hpm]
      simpa [curTitles] using parseLoopTitles (splitNl content) none []
    · rw [hpm]
      conv_lhs =>
        rw [← List.takeWhile_append_dropWhile (p := fun l => !(isHead l)) (l := splitNl content)]
      apply parseLoopSkip
      intro l hl
      have := List.mem_takeWhile_imp hl
      simpa using this

/-- Witness for claim C6's theorem: a two-line text with no heading parses
to the empty section sequence. -/
theorem claim_C6_sections_witness : parseMarkdownSections ("hello\nworld".data) = [] :=
  (claim_C6_sections ("hello\nworld".data)).1 (by decide)

/-- Every section flushed by the line scan keeps a level of 2 or 3. -/
theorem parseLoopLevels (lines : List Str) : ∀ (cur : Option CurSec) (acc : List Str),
    (∀ c, cur = some c → c.level = 2 ∨ c.level = 3) →
    ∀ sec ∈ parseLoop lines cur acc, sec.level = 2 ∨ sec.level = 3 := by
  induction lines with
  | nil =>
    intro cur acc hcur sec hsec
    cases cur with
    | none => simp [parseLoop, closeList] at hsec
    | some c =>
      simp [parseLoop, closeList, closeSec] at hsec
      rw [hsec]
      exact hcur c rfl
  | cons line rest ih =>
    intro cur acc hcur sec hsec
    have hclose : sec ∈ closeList cur acc → sec.level = 2 ∨ sec.level = 3 := by
      intro hs
      cases cur with
      | none => simp [closeList] at hs
      | some c =>
        simp [closeList, closeSec] at hs
        rw [hs]
        exact hcur c rfl
    by_cases h2 : isH2 line = true
    · simp only [parseLoop, h2, if_true] at hsec
      rcases List.mem_append.mp hsec with hs | hs
      · exact hclose hs
      · exact ih _ _ (by intro c hc; cases hc; exact Or.inl rfl) sec hs
    · by_cases h3 : isH3 line = true
      · simp only [parseLoop, h2, h3, if_true, if_false] at hsec
        rcases List.mem_append.mp hsec with hs | hs
        · exact hclose hs
        · exact ih _ _ (by intro c hc; cases hc; exact Or.inr rfl) sec hs
      · by_cases h4 : isH4 line = true
        · simp only [parseLoop, h2, h3, h4, if_true, if_false] at hsec
          cases hc : cur with
          | none =>
            rw [hc] at hsec
            exact ih _ _ (by intro c h; cases h) sec hsec
          | some c =>
            rw [hc] at hsec
            exact ih _ _
              (by intro c' h'; cases h'; exact hcur c hc) sec hsec
        · simp only [parseLoop, h2, h3, h4, if_false] at hsec
          exact ih _ _ hcur sec hsec

/-- Claim C10: every section the parser produces has level 2 or 3 (never
level 1), so the level-1 branch of `_extract_title` is unreachable on parser
output and the deck title is always derived from the description (first
sentence, generation-verb prefix stripped, truncated to 80 characters — the
`extractTitle _ []` branch). -/
theorem claim_C10_levels :
    (∀ content : Str, ∀ sec ∈ parseMarkdownSections content,
      sec.level = 2 ∨ sec.level = 3) ∧
    (∀ d content : Str,
      extractTitle d (parseMarkdownSections content) = extractTitle d []) := by
  have hlev : ∀ content : Str, ∀ sec ∈ parseMarkdownSections content,
      sec.level = 2 ∨ sec.level = 3 := by
    intro content sec hsec
    unfold parseMarkdownSections at hsec
    by_cases hs : pyStrip content = []
    · rw [if_pos hs] at hsec
      simp at hsec
    · rw [if_neg hs] at hsec
      exact parseLoopLevels _ none [] (by intro c hc; cases hc) sec hsec
  refine ⟨hlev, ?_⟩
  intro d content
  cases hp : parseMarkdownSections content with
  | nil => rfl
  | cons s rest =>
    have hl : s.level = 2 ∨ s.level = 3 := hlev content s (hp ▸ List.mem_cons_self _ _)
    show (if s.level = 1 then s.title else descTitle d) = descTitle d
    rw [if_neg (by rcases hl with h | h <;> simp [h])]

/-- Witness for claim C10's theorem: the single section parsed from
`"## Hi"` has level 2. -/
theorem claim_C10_levels_witness :
    (Section.mk 2 ("Hi".data) [] []).level = 2 ∨
      (Section.mk 2 ("Hi".data) [] []).level = 3 :=
  claim_C10_levels.1 ("## Hi".data) _ (by decide)

/-- HTML escaping never leaves a raw `<`, `>`, `"` or `'` in its output. -/
theorem escapeNoDanger (s : Str) :
    (escapeHtml s).all (fun c => !(c == '<' || c == '>' || c == '"' || c == '\'')) = true := by
  induction s with
  | nil => rfl
  | cons c t ih =>
    show ((escapeChar c ++ escapeHtml t).all _) = true
    rw [List.all_append, ih, Bool.and_true]
    unfold escapeChar
    split_ifs with h1 h2 h3 h4 h5
    · decide
    · decide
    · decide
    · decide
    · decide
    · simp [h2, h3, h4, h5]

/-- The XSS probe of the specification's testable property. -/
def attackStr : Str := "<script>alert(1)</script>".data

/-- A mapped title slide whose slide title is the XSS probe (exactly what
the designer produces for a planner title slide carrying that title). -/
def attackSlide : MappedSlide :=
  ⟨"title_center".data, "keynote_minimalist".data,
    .titleC attackStr [] ("#0A84FF".data), none⟩

/-- Claim C3: every slide-content string is HTML-escaped before insertion —
the escaped form of the probe, and no raw `<script>`, appears in the slides
markup — but the document-level `title` parameter (which the orchestrator
sets to the first slide's title) is interpolated into the `<title>` element
unescaped, so the probe appears verbatim in the rendered document. -/
theorem claim_C3_title_unescaped :
    (∀ s : Str,
      (escapeHtml s).all (fun c => !(c == '<' || c == '>' || c == '"' || c == '\'')) = true) ∧
    (∃ pre post : Str,
      renderDoc [attackSlide] demoTheme attackStr = pre ++ attackStr ++ post) ∧
    pyIn attackStr (renderSlides [attackSlide]) = false ∧
    pyIn ("&lt;script&gt;alert(1)&lt;/script&gt;".data) (renderSlides [attackSlide]) = true := by
  refine ⟨escapeNoDanger,
    ⟨htmlPart0,
     htmlPart1 ++ generateCss demoTheme ++ htmlPart2 ++ renderSlides [attackSlide] ++
       htmlPart3 ++ navJs ++ htmlPart4, ?_⟩,
    by decide, by decide⟩
  unfold renderDoc
  rw [show attackStr.take 60 = attackStr from by decide]
  simp [List.append_assoc]

end DeckGen
